import Mathlib

/-!
Shallow embedding of the Star Trek simulation engine (Python sources:
game/enterprise.py, game/galaxy.py, game/combat.py, game/commands.py,
startrek.py) together with proofs settling the specification claims.

Conventions of the embedding:
* Python `int` fields become `ℤ`; Python `float` values that only ever
  undergo field operations and comparisons on random draws (the per-system
  damage map, probability rolls) become `ℚ`; genuinely real-valued
  geometry (square roots, `atan2`, `math.pi`) becomes `ℝ`.
* Mutation becomes explicit state passing: a method that mutates `self`
  returns the updated record.
* Python exceptions (IndexError, KeyError, AttributeError) are modelled by
  the `Res` result type's `exn` outcome; unbounded rejection-sampling
  loops take explicit fuel and report exhaustion as `Res.spin` (an
  artifact of the embedding, distinct from any behaviour of the code).
* The global `random` stream is threaded as explicit oracle structures,
  one field per independent draw site.
* Message strings of results are dropped (they interpolate floats); the
  success flags and numeric payloads are kept.
-/

/-- Result of running a piece of embedded Python code: a normal value,
a raised exception, or exhaustion of the fuel bounding a
rejection-sampling loop (the latter is an artifact of the embedding). -/
inductive Res (α : Type) where
  | ok (a : α)
  | exn
  | spin
deriving DecidableEq, Repr

def Res.bind {α β : Type} : Res α → (α → Res β) → Res β
  | .ok a, f => f a
  | .exn, _ => .exn
  | .spin, _ => .spin

instance : Monad Res where
  pure := Res.ok
  bind := Res.bind

/-- Entity tags stored in one sector cell (galaxy.py, class EntityType). -/
inductive EntityType where
  | empty
  | enterprise
  | klingon
  | starbase
  | star
deriving DecidableEq, Repr

/-- The eight damageable ship systems (enterprise.py, class ShipSystem). -/
inductive ShipSystem where
  | warp_engines
  | short_range_sensors
  | long_range_sensors
  | phaser_control
  | photon_tubes
  | damage_control
  | shield_control
  | library_computer
deriving DecidableEq, Repr

/-- The player ship state (enterprise.py, dataclass Enterprise).  The
`damage` map assigns each system its repair state (negative = damaged). -/
structure Enterprise where
  quadrant_row : ℤ
  quadrant_col : ℤ
  sector_row : ℤ
  sector_col : ℤ
  energy : ℤ
  max_energy : ℤ
  torpedoes : ℤ
  max_torpedoes : ℤ
  shields : ℤ
  docked : Bool
  destroyed : Bool
  damage : ShipSystem → ℚ

/-- Fresh ship with the dataclass default field values of enterprise.py. -/
def Enterprise.initial : Enterprise :=
  { quadrant_row := 0, quadrant_col := 0, sector_row := 0, sector_col := 0
    energy := 3000, max_energy := 3000, torpedoes := 10, max_torpedoes := 10
    shields := 0, docked := false, destroyed := false, damage := fun _ => 0 }

/-- Embedding of Enterprise.is_system_damaged. -/
def Enterprise.is_system_damaged (e : Enterprise) (s : ShipSystem) : Bool :=
  decide (e.damage s < 0)

/-- Embedding of Enterprise.can_warp. -/
def Enterprise.can_warp (e : Enterprise) : Bool :=
  ! e.is_system_damaged .warp_engines

/-- Embedding of Enterprise.can_fire_phasers. -/
def Enterprise.can_fire_phasers (e : Enterprise) : Bool :=
  ! e.is_system_damaged .phaser_control

/-- Embedding of Enterprise.can_fire_torpedoes. -/
def Enterprise.can_fire_torpedoes (e : Enterprise) : Bool :=
  ! e.is_system_damaged .photon_tubes

/-- Embedding of Enterprise.can_use_shields. -/
def Enterprise.can_use_shields (e : Enterprise) : Bool :=
  ! e.is_system_damaged .shield_control

/-- Embedding of Enterprise.use_energy: deducts `amount` when the energy
suffices, reporting whether the deduction happened. -/
def Enterprise.use_energy (e : Enterprise) (amount : ℤ) : Bool × Enterprise :=
  if amount ≤ e.energy then (true, { e with energy := e.energy - amount })
  else (false, e)

/-- Embedding of Enterprise.transfer_to_shields.  Note the negative branch
of the source clamps the transfer with `min` and always returns True. -/
def Enterprise.transfer_to_shields (e : Enterprise) (amount : ℤ) : Bool × Enterprise :=
  if amount < 0 then
    let transfer := min (-amount) e.shields
    (true, { e with shields := e.shields - transfer, energy := e.energy + transfer })
  else if amount ≤ e.energy then
    (true, { e with energy := e.energy - amount, shields := e.shields + amount })
  else
    (false, e)

/-- Embedding of Enterprise.fire_torpedo (the resource decrement). -/
def Enterprise.fire_torpedo (e : Enterprise) : Bool × Enterprise :=
  if 0 < e.torpedoes then (true, { e with torpedoes := e.torpedoes - 1 })
  else (false, e)

/-- Embedding of Enterprise.dock: full replenishment, shields lowered. -/
def Enterprise.dock (e : Enterprise) : Enterprise :=
  { e with docked := true, energy := e.max_energy,
           torpedoes := e.max_torpedoes, shields := 0 }

/-- Embedding of Enterprise.undock. -/
def Enterprise.undock (e : Enterprise) : Enterprise :=
  { e with docked := false }

/-- Embedding of Enterprise.set_position. -/
def Enterprise.set_position (e : Enterprise) (qr qc sr sc : ℤ) : Enterprise :=
  { e with quadrant_row := qr, quadrant_col := qc, sector_row := sr, sector_col := sc }

/-- Random draws consumed by one call of Enterprise.apply_damage:
the `random.random()` roll compared against 0.6, the system chosen by
`random.choice`, and the `random.uniform(-0.5, -3.0)` magnitude. -/
structure DamageOracle where
  sysRoll : ℚ
  sysPick : ShipSystem
  mag : ℚ

/-- Embedding of Enterprise.apply_damage: shields absorb first, the
remainder hits energy and (with probability 0.6) damages a random
system, and the ship is destroyed when energy drops to 0 or below. -/
def Enterprise.apply_damage (e : Enterprise) (amount : ℤ) (o : DamageOracle) : Enterprise :=
  let p : Enterprise × ℤ :=
    if 0 < e.shields then
      if amount ≤ e.shields then ({ e with shields := e.shields - amount }, 0)
      else ({ e with shields := 0 }, amount - e.shields)
    else (e, amount)
  let e1 := p.1
  let rest := p.2
  let e2 :=
    if 0 < rest then
      let eh := { e1 with energy := e1.energy - rest }
      if o.sysRoll < 3/5 then
        { eh with damage := Function.update eh.damage o.sysPick (eh.damage o.sysPick + o.mag) }
      else eh
    else e1
  if e2.energy ≤ 0 then { e2 with destroyed := true } else e2

/-- Embedding of the core of CommandHandler.execute_she once the amount
`n` has been read and parsed: shield-control check, the zero no-op, the
two resource guards, then the actual transfer. -/
def execute_she (e : Enterprise) (n : ℤ) : Bool × Enterprise :=
  if ! e.can_use_shields then (false, e)
  else if n = 0 then (true, e)
  else if 0 < n ∧ e.energy < n then (false, e)
  else if n < 0 ∧ e.shields < -n then (false, e)
  else (true, (e.transfer_to_shields n).2)

/-! ### Claims C5, C6, C10: ship-state operations -/

/-- Concrete ship used to refute the C5 failure contract: 100 energy,
5 shield units. -/
def sheShip : Enterprise :=
  { Enterprise.initial with energy := 100, shields := 5 }

/-- C5 counterexample: with shields at 5, `transfer_to_shields (-10)` has
`|n| > shields`, yet the source clamps the transfer to 5 units and
returns True with the state mutated (shields 0, energy 105), where the
claim demands a False return with no mutation. -/
theorem transfer_to_shields_overdraw_counterexample :
    (sheShip.transfer_to_shields (-10)).1 = true ∧
    (sheShip.transfer_to_shields (-10)).2.shields = 0 ∧
    (sheShip.transfer_to_shields (-10)).2.energy = 105 := by
  refine ⟨rfl, ?_, ?_⟩ <;> decide

/-- C5 amended: positive `n` moves `n` energy to shields, failing with no
mutation when `n > energy`; negative `n` always succeeds and moves
`min (|n|, shields)` back to energy (the `|n| > shields` case is instead
rejected, with no mutation, by the SHE command handler before the
transfer is invoked). -/
theorem transfer_to_shields_spec (e : Enterprise) (n : ℤ) :
    (0 < n → n ≤ e.energy →
      e.transfer_to_shields n =
        (true, { e with energy := e.energy - n, shields := e.shields + n })) ∧
    (0 < n → e.energy < n → e.transfer_to_shields n = (false, e)) ∧
    (n < 0 →
      e.transfer_to_shields n =
        (true, { e with shields := e.shields - min (-n) e.shields,
                        energy := e.energy + min (-n) e.shields })) ∧
    (n < 0 → e.shields < -n → execute_she e n = (false, e)) := by
  refine ⟨fun h1 h2 => ?_, fun h1 h2 => ?_, fun h1 => ?_, fun h1 h2 => ?_⟩
  · rw [Enterprise.transfer_to_shields]
    rw [if_neg (by omega), if_pos h2]
  · rw [Enterprise.transfer_to_shields]
    rw [if_neg (by omega), if_neg (by omega)]
  · rw [Enterprise.transfer_to_shields, if_pos h1]
  · rw [execute_she]
    by_cases hs : e.can_use_shields
    · simp only [hs, Bool.not_true, Bool.false_eq_true, if_false]
      rw [if_neg (by omega), if_neg (by omega), if_pos (by omega)]
    · simp only [Bool.not_eq_true] at hs
      simp [hs]

/-- C5 amended-claim witness: exercising both the clamped negative branch
and the positive insufficient-energy rejection at concrete inputs. -/
theorem transfer_to_shields_spec_witness :
    sheShip.transfer_to_shields (-3) =
      (true, { sheShip with shields := 2, energy := 103 }) ∧
    sheShip.transfer_to_shields 500 = (false, sheShip) := by
  constructor
  · have h := (transfer_to_shields_spec sheShip (-3)).2.2.1 (by norm_num)
    rw [h]
    have h1 : sheShip.shields - min (-(-3)) sheShip.shields = 2 := by decide
    have h2 : sheShip.energy + min (-(-3)) sheShip.shields = 103 := by decide
    rw [h1, h2]
  · exact (transfer_to_shields_spec sheShip 500).2.1 (by norm_num) (by decide)


/-- Field-level characterization of Enterprise.apply_damage for valid
states (nonnegative shields, nonnegative damage): shields lose
`min amount shields`, energy loses the remainder, destruction is recorded
exactly when final energy is ≤ 0, and all other resource fields are
untouched for every random outcome. -/
theorem apply_damage_fields (e : Enterprise) (amount : ℤ) (o : DamageOracle)
    (hs : 0 ≤ e.shields) (ha : 0 ≤ amount) :
    (e.apply_damage amount o).shields = e.shields - min amount e.shields ∧
    (e.apply_damage amount o).energy = e.energy - (amount - min amount e.shields) ∧
    (e.apply_damage amount o).destroyed =
      (e.destroyed || decide (e.energy - (amount - min amount e.shields) ≤ 0)) ∧
    (e.apply_damage amount o).torpedoes = e.torpedoes ∧
    (e.apply_damage amount o).docked = e.docked ∧
    (e.apply_damage amount o).quadrant_row = e.quadrant_row ∧
    (e.apply_damage amount o).quadrant_col = e.quadrant_col ∧
    (e.apply_damage amount o).sector_row = e.sector_row ∧
    (e.apply_damage amount o).sector_col = e.sector_col ∧
    (e.apply_damage amount o).max_energy = e.max_energy ∧
    (e.apply_damage amount o).max_torpedoes = e.max_torpedoes := by
  simp only [Enterprise.apply_damage]
  split_ifs with h1 h2 h3 h4 h5 h6 h7 h8 h9 h10 h11 h12 h13 h14 <;>
    simp_all <;> omega

/-- C6: with nonnegative shields and a nonnegative incoming amount D
(and a ship not already destroyed), shields absorb first — if shields
cover D they drop by D and energy is unchanged, otherwise shields drop
to 0 and energy drops by the remainder — and the destroyed flag ends up
set exactly when the resulting energy is at most 0, for every random
outcome `o`. -/
theorem apply_damage_shields_first (e : Enterprise) (amount : ℤ) (o : DamageOracle)
    (hs : 0 ≤ e.shields) (ha : 0 ≤ amount) (hd : e.destroyed = false) :
    (amount ≤ e.shields →
      (e.apply_damage amount o).shields = e.shields - amount ∧
      (e.apply_damage amount o).energy = e.energy) ∧
    (e.shields < amount →
      (e.apply_damage amount o).shields = 0 ∧
      (e.apply_damage amount o).energy = e.energy - (amount - e.shields)) ∧
    ((e.apply_damage amount o).destroyed = true ↔ (e.apply_damage amount o).energy ≤ 0) := by
  obtain ⟨h1, h2, h3, -⟩ := apply_damage_fields e amount o hs ha
  refine ⟨fun hle => ?_, fun hlt => ?_, ?_⟩
  · rw [h1, h2, min_eq_left hle]
    exact ⟨rfl, by ring⟩
  · rw [h1, h2, min_eq_right (le_of_lt hlt)]
    exact ⟨by ring, rfl⟩
  · rw [h3, h2, hd, Bool.false_or, decide_eq_true_eq]

/-- C6 witness: a live ship with 10 shields and 3000 energy hit for 4
keeps its energy, drops shields to 6, and its destroyed flag agrees with
the final-energy test. -/
theorem apply_damage_shields_first_witness :
    ((Enterprise.initial.dock.undock.transfer_to_shields 10).2.apply_damage 4
        ⟨1, .phaser_control, -1⟩).shields =
      (Enterprise.initial.dock.undock.transfer_to_shields 10).2.shields - 4 ∧
    ((Enterprise.initial.dock.undock.transfer_to_shields 10).2.apply_damage 4
        ⟨1, .phaser_control, -1⟩).energy =
      (Enterprise.initial.dock.undock.transfer_to_shields 10).2.energy ∧
    (((Enterprise.initial.dock.undock.transfer_to_shields 10).2.apply_damage 4
        ⟨1, .phaser_control, -1⟩).destroyed = true ↔
      ((Enterprise.initial.dock.undock.transfer_to_shields 10).2.apply_damage 4
        ⟨1, .phaser_control, -1⟩).energy ≤ 0) := by
  have h := apply_damage_shields_first (Enterprise.initial.dock.undock.transfer_to_shields 10).2
    4 ⟨1, .phaser_control, -1⟩ (by decide) (by decide) (by decide)
  obtain ⟨ha, -, hc⟩ := h
  have := ha (by decide)
  exact ⟨this.1, this.2, hc⟩

/-- C10: for a valid ship state (nonnegative shields) and nonnegative
damage D, applying damage lowers `energy + shields` by exactly D and
never drives shields negative; and the random roll influences only the
per-system damage map — energy, shields, destroyed and torpedoes are the
same for every random outcome. -/
theorem apply_damage_conserves_total (e : Enterprise) (amount : ℤ) (o : DamageOracle)
    (hs : 0 ≤ e.shields) (ha : 0 ≤ amount) :
    (e.apply_damage amount o).energy + (e.apply_damage amount o).shields =
      e.energy + e.shields - amount ∧
    0 ≤ (e.apply_damage amount o).shields ∧
    (∀ o' : DamageOracle,
      (e.apply_damage amount o').energy = (e.apply_damage amount o).energy ∧
      (e.apply_damage amount o').shields = (e.apply_damage amount o).shields ∧
      (e.apply_damage amount o').destroyed = (e.apply_damage amount o).destroyed ∧
      (e.apply_damage amount o').torpedoes = (e.apply_damage amount o).torpedoes) := by
  obtain ⟨h1, h2, h3, h4, -⟩ := apply_damage_fields e amount o hs ha
  refine ⟨?_, ?_, fun o' => ?_⟩
  · rw [h1, h2]
    have : min amount e.shields ≤ e.shields := min_le_right _ _
    ring
  · rw [h1]
    have : min amount e.shields ≤ e.shields := min_le_right _ _
    omega
  · obtain ⟨g1, g2, g3, g4, -⟩ := apply_damage_fields e amount o' hs ha
    exact ⟨by rw [g2, h2], by rw [g1, h1], by rw [g3, h3], by rw [g4, h4]⟩

/-- C10 witness: 3 shields, 10 incoming damage on a fresh ship — the
energy+shields total drops by exactly 10 and shields stay nonnegative,
for two distinct random outcomes. -/
theorem apply_damage_conserves_total_witness :
    ((Enterprise.initial.transfer_to_shields 3).2.apply_damage 10
        ⟨0, .warp_engines, -2⟩).energy +
      ((Enterprise.initial.transfer_to_shields 3).2.apply_damage 10
        ⟨0, .warp_engines, -2⟩).shields =
      (Enterprise.initial.transfer_to_shields 3).2.energy +
        (Enterprise.initial.transfer_to_shields 3).2.shields - 10 ∧
    0 ≤ ((Enterprise.initial.transfer_to_shields 3).2.apply_damage 10
        ⟨0, .warp_engines, -2⟩).shields ∧
    ((Enterprise.initial.transfer_to_shields 3).2.apply_damage 10
        ⟨1, .library_computer, -1⟩).energy =
      ((Enterprise.initial.transfer_to_shields 3).2.apply_damage 10
        ⟨0, .warp_engines, -2⟩).energy := by
  have h := apply_damage_conserves_total (Enterprise.initial.transfer_to_shields 3).2 10
    ⟨0, .warp_engines, -2⟩ (by decide) (by decide)
  exact ⟨h.1, h.2.1, (h.2.2 ⟨1, .library_computer, -1⟩).1⟩

/-! ### Python list semantics

CPython sequence indexing: a negative index counts from the end of the
list, and an index that is still out of range (after that adjustment)
raises IndexError.  `remove_klingon` in galaxy.py indexes
`self.sector_map[row][col]` without any bounds check, so these semantics
are observable and are modelled exactly. -/

/-- Effective CPython list index for length `n`: `some j` gives the
0-based position actually read, `none` means IndexError. -/
def pyIdx (n : ℕ) (i : ℤ) : Option ℕ :=
  if 0 ≤ i then (if i < (n : ℤ) then some i.toNat else none)
  else if 0 ≤ i + (n : ℤ) then some (i + (n : ℤ)).toNat else none

/-- CPython `l[i]` read. -/
def pyGet {α : Type} (l : List α) (i : ℤ) : Res α :=
  match pyIdx l.length i with
  | some j =>
    match l.get? j with
    | some a => .ok a
    | none => .exn
  | none => .exn

/-- CPython `l[i] = a` write. -/
def pySet {α : Type} (l : List α) (i : ℤ) (a : α) : Res (List α) :=
  match pyIdx l.length i with
  | some j => .ok (l.set j a)
  | none => .exn

/-- CPython `m[r][c]` read on a nested list. -/
def pyGet2 {α : Type} (m : List (List α)) (r c : ℤ) : Res α := do
  let row ← pyGet m r
  pyGet row c

/-- CPython `m[r][c] = a` write on a nested list (the inner row object is
mutated in place, so the outer list keeps the same row position). -/
def pySet2 {α : Type} (m : List (List α)) (r c : ℤ) (a : α) : Res (List (List α)) :=
  match pyIdx m.length r with
  | none => .exn
  | some j =>
    match m.get? j with
    | none => .exn
    | some row =>
      match pySet row c a with
      | .ok row' => .ok (m.set j row')
      | .exn => .exn
      | .spin => .spin

/-- A Klingon ship in a quadrant's detailed view (galaxy.py, dataclass
Klingon); `energy` is drawn in [300, 599] at creation. -/
structure Klingon where
  sector_row : ℤ
  sector_col : ℤ
  energy : ℤ
deriving DecidableEq, Repr

/-- One galaxy quadrant (galaxy.py, dataclass Quadrant): summary counts,
the scanned flag, and the lazily built detailed sector view (an empty
`sector_map` models the Python empty list, i.e. "no detailed map yet"). -/
structure Quadrant where
  row : ℤ
  col : ℤ
  klingons : ℤ
  starbases : ℤ
  stars : ℤ
  scanned : Bool
  sector_map : List (List EntityType)
  klingon_ships : List Klingon
  starbase_pos : Option (ℤ × ℤ)
  star_positions : List (ℤ × ℤ)
deriving DecidableEq, Repr

/-- Fresh summary-only quadrant with the dataclass defaults of galaxy.py. -/
def Quadrant.blank (row col : ℤ) : Quadrant :=
  { row := row, col := col, klingons := 0, starbases := 0, stars := 0,
    scanned := false, sector_map := [], klingon_ships := [],
    starbase_pos := none, star_positions := [] }

/-- Embedding of Quadrant.get_lrs_value: the 3-digit KBS encoding. -/
def Quadrant.get_lrs_value (q : Quadrant) : ℤ :=
  q.klingons * 100 + q.starbases * 10 + q.stars

/-- Embedding of Quadrant.remove_klingon.  The source indexes
`self.sector_map[row][col]` with no bounds check, hence the Python
indexing semantics (negative aliasing / IndexError) apply; on a match the
cell is cleared, the ship list is filtered by coordinates, and the
quadrant count is decremented. -/
def Quadrant.remove_klingon (q : Quadrant) (row col : ℤ) : Res (Bool × Quadrant) := do
  let e ← pyGet2 q.sector_map row col
  if e = EntityType.klingon then do
    let m ← pySet2 q.sector_map row col .empty
    pure (true,
      { q with sector_map := m,
               klingon_ships := q.klingon_ships.filter
                 (fun k => ! (k.sector_row = row ∧ k.sector_col = col : Bool)),
               klingons := q.klingons - 1 })
  else
    pure (false, q)

/-- Embedding of Quadrant.get_entity_at: bounds-checked lookup returning
EMPTY when the map is absent or the coordinates are out of range (the
in-range read itself can still raise on a malformed map, as in Python). -/
def Quadrant.get_entity_at (q : Quadrant) (row col : ℤ) : Res EntityType :=
  if q.sector_map ≠ [] ∧ 0 ≤ row ∧ row < 8 ∧ 0 ≤ col ∧ col < 8 then
    pyGet2 q.sector_map row col
  else
    .ok .empty

/-- Embedding of Quadrant.remove_enterprise: bounds-checked, clears the
cell only when it currently holds the Enterprise. -/
def Quadrant.remove_enterprise (q : Quadrant) (row col : ℤ) : Res Quadrant :=
  if q.sector_map ≠ [] ∧ 0 ≤ row ∧ row < 8 ∧ 0 ≤ col ∧ col < 8 then do
    let e ← pyGet2 q.sector_map row col
    if e = EntityType.enterprise then do
      let m ← pySet2 q.sector_map row col .empty
      pure { q with sector_map := m }
    else
      pure q
  else
    pure q

/-- Embedding of Quadrant.is_adjacent_to_starbase: Chebyshev distance at
most 1 from the cached starbase position, if any. -/
def Quadrant.is_adjacent_to_starbase (q : Quadrant) (row col : ℤ) : Bool :=
  match q.starbase_pos with
  | none => false
  | some (sb_row, sb_col) => decide (|row - sb_row| ≤ 1 ∧ |col - sb_col| ≤ 1)

/-! ### Claim C9: remove_klingon on non-matching cells -/

/-- Helper: an in-range nonnegative CPython index reads the usual list
element. -/
theorem pyGet_ok {α : Type} (l : List α) (i : ℤ) (h0 : 0 ≤ i)
    (hl : i < (l.length : ℤ)) :
    pyGet l i = Res.ok (l.get ⟨i.toNat, by omega⟩) := by
  have hn : i.toNat < l.length := by omega
  simp only [pyGet, pyIdx, if_pos h0, if_pos hl, List.get?_eq_get hn]

/-- An all-empty sector row. -/
def emptyRow : List EntityType := List.replicate 8 .empty

/-- Concrete 8×8 sector map with a single Klingon at (7,0). -/
def c9Map : List (List EntityType) :=
  List.replicate 7 emptyRow ++ [EntityType.klingon :: List.replicate 7 .empty]

/-- Concrete quadrant: one Klingon at sector (7,0), consistent caches. -/
def c9Quadrant : Quadrant :=
  { Quadrant.blank 0 0 with
    klingons := 1
    sector_map := c9Map
    klingon_ships := [⟨7, 0, 300⟩] }

/-- C9 counterexample: coordinates (-1, 0) lie outside [0,8)², so the
claim demands a failure with the quadrant unchanged; instead the
source's unchecked indexing aliases row -1 to row 7, *successfully*
removes the Klingon cell there (returning True, decrementing the count),
and leaves the ship list desynchronized (no ship has row -1). -/
theorem remove_klingon_oob_counterexample :
    c9Quadrant.remove_klingon (-1) 0 ≠ Res.ok (false, c9Quadrant) ∧
    c9Quadrant.remove_klingon (-1) 0 =
      Res.ok (true,
        { c9Quadrant with
            sector_map := List.replicate 7 emptyRow ++ [emptyRow],
            klingon_ships := [⟨7, 0, 300⟩],
            klingons := 0 }) := by
  constructor
  · decide
  · decide

/-- C9 amended: for in-bounds coordinates on a well-formed 8×8 sector
map, removing from a cell that does not hold a Klingon is a no-op that
returns failure, leaving the quadrant (map, ship list, count) unchanged.
Out-of-range coordinates instead follow CPython indexing (negative
aliasing or IndexError), as do quadrants without a sector map. -/
theorem remove_klingon_nonmatch_noop (q : Quadrant) (row col : ℤ)
    (hlen : q.sector_map.length = 8)
    (hrows : ∀ r ∈ q.sector_map, r.length = 8)
    (hr : 0 ≤ row) (hr8 : row < 8) (hc : 0 ≤ col) (hc8 : col < 8)
    (hcell : pyGet2 q.sector_map row col ≠ Res.ok EntityType.klingon) :
    q.remove_klingon row col = Res.ok (false, q) := by
  have hrl : row < (q.sector_map.length : ℤ) := by rw [hlen]; exact_mod_cast hr8
  have hrowget := pyGet_ok q.sector_map row hr hrl
  set r := q.sector_map.get ⟨row.toNat, by omega⟩ with hrdef
  have hmem : r ∈ q.sector_map := List.get_mem _ _ _
  have hcl : col < (r.length : ℤ) := by rw [hrows r hmem]; exact_mod_cast hc8
  have hcget := pyGet_ok r col hc hcl
  have h2 : pyGet2 q.sector_map row col = Res.ok (r.get ⟨col.toNat, by omega⟩) := by
    rw [pyGet2]
    show Res.bind (pyGet q.sector_map row) _ = _
    rw [hrowget]
    exact hcget
  have hne : r.get ⟨col.toNat, by omega⟩ ≠ EntityType.klingon := by
    intro h
    exact hcell (by rw [h2, h])
  rw [Quadrant.remove_klingon]
  show Res.bind (pyGet2 q.sector_map row col) _ = _
  rw [h2]
  simp only [Res.bind, if_neg hne]
  rfl

/-- C9 amended-claim witness: removing from the empty in-bounds cell
(0,0) of the concrete quadrant fails and changes nothing. -/
theorem remove_klingon_nonmatch_noop_witness :
    c9Quadrant.remove_klingon 0 0 = Res.ok (false, c9Quadrant) :=
  remove_klingon_nonmatch_noop c9Quadrant 0 0 (by decide) (by decide)
    (by decide) (by decide) (by decide) (by decide) (by decide)

/-! ### Galaxy model and claim C8: long-range scan -/

/-- The galaxy (galaxy.py, class Galaxy).  The Python 8×8 list-of-lists
`quadrants` is represented as a function on coordinates: every access in
the source is bounds-checked into [0,8)² (or drawn by `randint(0,7)`),
so list-indexing semantics are not observable here. -/
structure Galaxy where
  grid : ℤ → ℤ → Quadrant
  total_klingons : ℤ
  total_starbases : ℤ
  initial_klingons : ℤ
  stardate : ℚ
  time_limit : ℤ

/-- Point update of one quadrant of the grid (the Python code mutates the
shared Quadrant object in place). -/
def Galaxy.setQuadrant (g : Galaxy) (r c : ℤ) (q : Quadrant) : Galaxy :=
  { g with grid := fun r' c' => if r' = r ∧ c' = c then q else g.grid r' c' }

/-- Embedding of Galaxy.get_quadrant: bounds-checked lookup. -/
def Galaxy.get_quadrant (g : Galaxy) (row col : ℤ) : Option Quadrant :=
  if 0 ≤ row ∧ row < 8 ∧ 0 ≤ col ∧ col < 8 then some (g.grid row col) else none

/-- Embedding of Galaxy.klingon_destroyed. -/
def Galaxy.klingon_destroyed (g : Galaxy) : Galaxy :=
  { g with total_klingons := g.total_klingons - 1 }

/-- Embedding of Galaxy.starbase_destroyed.  NOTE: this method exists in
the source ("Called when a starbase is destroyed") but no call site ever
invokes it. -/
def Galaxy.starbase_destroyed (g : Galaxy) (row col : ℤ) : Galaxy :=
  if 0 < (g.grid row col).starbases then
    { g.setQuadrant row col
        { g.grid row col with starbases := (g.grid row col).starbases - 1 } with
      total_starbases := g.total_starbases - 1 }
  else g

/-- One cell of the long-range scan (body of the inner loop of
Galaxy.get_lrs_data): in bounds, mark the quadrant scanned and report its
KBS value; out of bounds, report None. -/
def lrsCell (g : Galaxy) (r c : ℤ) : Galaxy × Option ℤ :=
  if 0 ≤ r ∧ r < 8 ∧ 0 ≤ c ∧ c < 8 then
    (g.setQuadrant r c { g.grid r c with scanned := true },
      some (g.grid r c).get_lrs_value)
  else (g, none)

/-- Inner loop of Galaxy.get_lrs_data: one row of the 3×3 report. -/
def lrsRow (g : Galaxy) (r0 cc : ℤ) : Galaxy × List (Option ℤ) :=
  List.foldl (fun acc dc =>
    let p := lrsCell acc.1 r0 (cc + dc)
    (p.1, acc.2 ++ [p.2])) (g, []) [-1, 0, 1]

/-- Embedding of Galaxy.get_lrs_data: the 3×3 block of quadrants around
the given center, marking in-bounds quadrants scanned. -/
def Galaxy.get_lrs_data (g : Galaxy) (cr cc : ℤ) : Galaxy × List (List (Option ℤ)) :=
  List.foldl (fun acc dr =>
    let p := lrsRow acc.1 (cr + dr) cc
    (p.1, acc.2 ++ [p.2])) (g, []) [-1, 0, 1]

/-- Report value the scan yields for one coordinate pair. -/
def lrsValueAt (g : Galaxy) (r c : ℤ) : Option ℤ :=
  if 0 ≤ r ∧ r < 8 ∧ 0 ≤ c ∧ c < 8 then some (g.grid r c).get_lrs_value else none

/-- Grid effect of a single scan cell. -/
theorem lrsCell_grid (g : Galaxy) (a b r c : ℤ) :
    (lrsCell g a b).1.grid r c =
      if r = a ∧ c = b ∧ 0 ≤ a ∧ a < 8 ∧ 0 ≤ b ∧ b < 8 then
        { g.grid r c with scanned := true }
      else g.grid r c := by
  rw [lrsCell]
  by_cases hb : 0 ≤ a ∧ a < 8 ∧ 0 ≤ b ∧ b < 8
  · rw [if_pos hb]
    simp only [Galaxy.setQuadrant]
    by_cases hp : r = a ∧ c = b
    · rw [if_pos hp, if_pos ⟨hp.1, hp.2, hb.1, hb.2.1, hb.2.2.1, hb.2.2.2⟩]
      obtain ⟨hr, hc⟩ := hp
      subst hr
      subst hc
      rfl
    · rw [if_neg hp, if_neg (by tauto)]
  · rw [if_neg hb, if_neg (by tauto)]

/-- Report value of a single scan cell. -/
theorem lrsCell_val (g : Galaxy) (a b : ℤ) :
    (lrsCell g a b).2 = lrsValueAt g a b := by
  rw [lrsCell, lrsValueAt]
  split_ifs <;> rfl

/-- Scanning one cell does not change any report value (only the scanned
flag moves, and KBS values ignore it). -/
theorem lrsValueAt_scan (g : Galaxy) (a b r c : ℤ) :
    lrsValueAt (lrsCell g a b).1 r c = lrsValueAt g r c := by
  rw [lrsValueAt, lrsValueAt, lrsCell_grid]
  split_ifs <;> rfl

/-- Galaxy-level counters are untouched by a scan cell. -/
theorem lrsCell_frame (g : Galaxy) (a b : ℤ) :
    (lrsCell g a b).1.total_klingons = g.total_klingons ∧
    (lrsCell g a b).1.total_starbases = g.total_starbases ∧
    (lrsCell g a b).1.initial_klingons = g.initial_klingons ∧
    (lrsCell g a b).1.stardate = g.stardate ∧
    (lrsCell g a b).1.time_limit = g.time_limit := by
  rw [lrsCell]
  split_ifs <;> exact ⟨rfl, rfl, rfl, rfl, rfl⟩

/-- Characterization of one row of the scan: the three cells of row `r0`
get their scanned flag set when in bounds, nothing else moves, and the
reported values are the KBS values (None out of bounds). -/
theorem lrsRow_spec (g : Galaxy) (r0 cc : ℤ) :
    (∀ r c : ℤ,
      (lrsRow g r0 cc).1.grid r c =
        if r = r0 ∧ cc - 1 ≤ c ∧ c ≤ cc + 1 ∧ 0 ≤ r ∧ r < 8 ∧ 0 ≤ c ∧ c < 8 then
          { g.grid r c with scanned := true }
        else g.grid r c) ∧
    (lrsRow g r0 cc).2 =
      [lrsValueAt g r0 (cc - 1), lrsValueAt g r0 cc, lrsValueAt g r0 (cc + 1)] := by
  constructor
  · intro r c
    simp only [lrsRow, List.foldl]
    rw [lrsCell_grid, lrsCell_grid, lrsCell_grid]
    split_ifs <;> first | rfl | (exfalso; omega)
  · simp only [lrsRow, List.foldl, List.nil_append]
    rw [lrsCell_val, lrsCell_val, lrsCell_val, lrsValueAt_scan, lrsValueAt_scan,
      lrsValueAt_scan]
    have h1 : cc + -1 = cc - 1 := by ring
    have h2 : cc + 0 = cc := by ring
    rw [h1, h2]
    rfl

/-- A whole scanned row leaves every report value unchanged. -/
theorem lrsValueAt_row (g : Galaxy) (r0 cc r c : ℤ) :
    lrsValueAt (lrsRow g r0 cc).1 r c = lrsValueAt g r c := by
  rw [lrsValueAt, lrsValueAt, (lrsRow_spec g r0 cc).1 r c]
  split_ifs <;> rfl

/-- Galaxy-level counters are untouched by a scanned row. -/
theorem lrsRow_frame (g : Galaxy) (r0 cc : ℤ) :
    (lrsRow g r0 cc).1.total_klingons = g.total_klingons ∧
    (lrsRow g r0 cc).1.total_starbases = g.total_starbases := by
  simp only [lrsRow, List.foldl]
  obtain ⟨k1, s1, -⟩ := lrsCell_frame g r0 (cc + -1)
  obtain ⟨k2, s2, -⟩ := lrsCell_frame (lrsCell g r0 (cc + -1)).1 r0 (cc + 0)
  obtain ⟨k3, s3, -⟩ :=
    lrsCell_frame (lrsCell (lrsCell g r0 (cc + -1)).1 r0 (cc + 0)).1 r0 (cc + 1)
  exact ⟨by rw [k3, k2, k1], by rw [s3, s2, s1]⟩

/-- C8 amended: the long-range scan sets `scanned` on exactly the
in-bounds quadrants of the 3×3 block centered on the given quadrant,
changes nothing else of any quadrant nor the galaxy counters, and
reports out-of-bounds cells as None and in-bounds cells by their KBS
value.  (The claim's frame clause fails system-wide: game initialization
also sets `scanned`; see the counterexample.) -/
theorem get_lrs_data_spec (g : Galaxy) (cr cc : ℤ) :
    (∀ r c : ℤ,
      (g.get_lrs_data cr cc).1.grid r c =
        if cr - 1 ≤ r ∧ r ≤ cr + 1 ∧ cc - 1 ≤ c ∧ c ≤ cc + 1 ∧
            0 ≤ r ∧ r < 8 ∧ 0 ≤ c ∧ c < 8 then
          { g.grid r c with scanned := true }
        else g.grid r c) ∧
    (g.get_lrs_data cr cc).2 =
      [[lrsValueAt g (cr - 1) (cc - 1), lrsValueAt g (cr - 1) cc,
        lrsValueAt g (cr - 1) (cc + 1)],
       [lrsValueAt g cr (cc - 1), lrsValueAt g cr cc, lrsValueAt g cr (cc + 1)],
       [lrsValueAt g (cr + 1) (cc - 1), lrsValueAt g (cr + 1) cc,
        lrsValueAt g (cr + 1) (cc + 1)]] ∧
    (g.get_lrs_data cr cc).1.total_klingons = g.total_klingons ∧
    (g.get_lrs_data cr cc).1.total_starbases = g.total_starbases := by
  have e1 : cr + -1 = cr - 1 := by ring
  have e2 : cr + 0 = cr := by ring
  refine ⟨fun r c => ?_, ?_, ?_, ?_⟩
  · simp only [Galaxy.get_lrs_data, List.foldl]
    rw [(lrsRow_spec _ _ _).1 r c, (lrsRow_spec _ _ _).1 r c,
      (lrsRow_spec _ _ _).1 r c]
    split_ifs <;> first | rfl | (exfalso; omega)
  · simp only [Galaxy.get_lrs_data, List.foldl, List.nil_append]
    rw [(lrsRow_spec _ _ _).2, (lrsRow_spec _ _ _).2, (lrsRow_spec _ _ _).2]
    rw [lrsValueAt_row, lrsValueAt_row, lrsValueAt_row, lrsValueAt_row,
      lrsValueAt_row, lrsValueAt_row, lrsValueAt_row, lrsValueAt_row,
      lrsValueAt_row]
    rw [e1, e2]
    rfl
  · simp only [Galaxy.get_lrs_data, List.foldl]
    obtain ⟨k1, -⟩ := lrsRow_frame g (cr + -1) cc
    obtain ⟨k2, -⟩ := lrsRow_frame (lrsRow g (cr + -1) cc).1 (cr + 0) cc
    obtain ⟨k3, -⟩ :=
      lrsRow_frame (lrsRow (lrsRow g (cr + -1) cc).1 (cr + 0) cc).1 (cr + 1) cc
    rw [k3, k2, k1]
  · simp only [Galaxy.get_lrs_data, List.foldl]
    obtain ⟨-, s1⟩ := lrsRow_frame g (cr + -1) cc
    obtain ⟨-, s2⟩ := lrsRow_frame (lrsRow g (cr + -1) cc).1 (cr + 0) cc
    obtain ⟨-, s3⟩ :=
      lrsRow_frame (lrsRow (lrsRow g (cr + -1) cc).1 (cr + 0) cc).1 (cr + 1) cc
    rw [s3, s2, s1]

/-- Scanned-flag effect of StarTrekGame.initialize_game (startrek.py,
"Mark starting quadrant as scanned"): after placing the ship, the start
quadrant's `scanned` flag is assigned True.  Only the scanned-flag
effect of initialize_game is modelled here; sector-map setup is a
separate concern of the same function and touches no scanned flag. -/
def game_init_scan (g : Galaxy) (qr qc : ℤ) : Galaxy :=
  match g.get_quadrant qr qc with
  | none => g
  | some q => g.setQuadrant qr qc { q with scanned := true }

/-- A fresh unscanned galaxy used in the C8 counterexample. -/
def freshGalaxy : Galaxy :=
  { grid := fun r c => Quadrant.blank r c, total_klingons := 0,
    total_starbases := 0, initial_klingons := 0, stardate := 0, time_limit := 25 }

/-- C8 counterexample: the claim says the long-range scan is the only
operation in the system mutating a quadrant's `scanned` flag, but game
initialization (startrek.py line 72) also mutates it: starting at
quadrant (2,3) flips its flag from false to true with no scan invoked. -/
theorem scanned_frame_counterexample :
    ((game_init_scan freshGalaxy 2 3).grid 2 3).scanned = true ∧
    (freshGalaxy.grid 2 3).scanned = false := by
  constructor
  · rfl
  · rfl

/-! ### Claim C4: galaxy generation -/

/-- Random stream consumed by Galaxy._initialize, one field per draw
site.  The `randint(0,7)` pair draws are typed `Fin 8` because the
Python call can only produce values in [0,7]. -/
structure GenStream where
  kDraw : ℤ → ℤ → ℚ
  bDraw : ℤ → ℤ → ℚ
  sDraw : ℤ → ℤ → ℤ
  forced : Fin 8 × Fin 8
  topUp : ℕ → Fin 8 × Fin 8
  dateDraw : ℤ
  timeDraw : ℤ

/-- Weighted Klingon count for one `random.random()` draw (galaxy.py:
8% three, next 12% two, next 30% one, else none). -/
def kWeight (r : ℚ) : ℤ :=
  if r < 2/25 then 3 else if r < 1/5 then 2 else if r < 1/2 then 1 else 0

/-- Row-major enumeration of all 64 quadrant coordinates. -/
def allQuadrants : List (ℤ × ℤ) :=
  (List.range 8).flatMap (fun r => (List.range 8).map (fun c => ((r : ℤ), (c : ℤ))))

/-- Sum of the per-quadrant Klingon counts over all 64 quadrants. -/
def klingonSum (g : Galaxy) : ℤ :=
  (allQuadrants.map (fun p => (g.grid p.1 p.2).klingons)).sum

/-- Sum of the per-quadrant starbase counts over all 64 quadrants. -/
def starbaseSum (g : Galaxy) : ℤ :=
  (allQuadrants.map (fun p => (g.grid p.1 p.2).starbases)).sum

/-- Body of the per-quadrant loop of Galaxy._initialize: weighted
Klingon draw (added to the running total), 4% starbase draw (added to
the running total), and a 1–8 star draw. -/
def genStep (s : GenStream) (g : Galaxy) (p : ℤ × ℤ) : Galaxy :=
  let g1 : Galaxy :=
    { g.setQuadrant p.1 p.2
        { g.grid p.1 p.2 with klingons := kWeight (s.kDraw p.1 p.2) } with
      total_klingons := g.total_klingons + kWeight (s.kDraw p.1 p.2) }
  let g2 : Galaxy :=
    if s.bDraw p.1 p.2 < 1/25 then
      { g1.setQuadrant p.1 p.2 { g1.grid p.1 p.2 with starbases := 1 } with
        total_starbases := g1.total_starbases + 1 }
    else g1
  g2.setQuadrant p.1 p.2 { g2.grid p.1 p.2 with stars := s.sDraw p.1 p.2 }

/-- First phase of Galaxy._initialize: the random pass over all 64
quadrants. -/
def genPass (s : GenStream) (g : Galaxy) : Galaxy :=
  allQuadrants.foldl (genStep s) g

/-- Second phase: force one starbase if the random pass produced none. -/
def forceStarbase (s : GenStream) (g : Galaxy) : Galaxy :=
  if g.total_starbases = 0 then
    { g.setQuadrant (s.forced.1.val : ℤ) (s.forced.2.val : ℤ)
        { g.grid (s.forced.1.val : ℤ) (s.forced.2.val : ℤ) with starbases := 1 } with
      total_starbases := 1 }
  else g

/-- Third phase: the `while total_klingons < 10` top-up loop, with
explicit fuel (`none` = fuel exhausted; the Python loop retries
unboundedly). -/
def topUpLoop (s : GenStream) : ℕ → ℕ → Galaxy → Option Galaxy
  | 0, _, g => if 10 ≤ g.total_klingons then some g else none
  | fuel + 1, i, g =>
    if 10 ≤ g.total_klingons then some g
    else
      let r : ℤ := ((s.topUp i).1.val : ℤ)
      let c : ℤ := ((s.topUp i).2.val : ℤ)
      let g' :=
        if (g.grid r c).klingons < 3 then
          { g.setQuadrant r c
              { g.grid r c with klingons := (g.grid r c).klingons + 1 } with
            total_klingons := g.total_klingons + 1 }
        else g
      topUpLoop s fuel (i + 1) g'

/-- Blank galaxy as built by Galaxy.__init__ before _initialize runs. -/
def genStart : Galaxy :=
  { grid := fun r c => Quadrant.blank r c, total_klingons := 0,
    total_starbases := 0, initial_klingons := 0, stardate := 0, time_limit := 0 }

/-- Embedding of Galaxy.__init__ followed by Galaxy._initialize: a blank
8×8 grid of quadrants, the random pass, the starbase guarantee, the
Klingon top-up loop, then the bookkeeping fields (initial count,
stardate in [2000,4000] as a multiple of 100, 25–35 day time limit). -/
def galaxyInit (s : GenStream) (fuel : ℕ) : Option Galaxy :=
  match topUpLoop s fuel 0 (forceStarbase s (genPass s genStart)) with
  | none => none
  | some g3 =>
    some { g3 with initial_klingons := g3.total_klingons,
                   stardate := (s.dateDraw : ℚ) * 100,
                   time_limit := 25 + s.timeDraw }

/-- Reading back the quadrant just written. -/
theorem setQuadrant_grid_eq (g : Galaxy) (a b : ℤ) (q : Quadrant) :
    (g.setQuadrant a b q).grid a b = q := by
  rw [Galaxy.setQuadrant]
  exact if_pos ⟨rfl, rfl⟩

/-- Writing one quadrant leaves every other coordinate pair unchanged. -/
theorem setQuadrant_grid_ne (g : Galaxy) (a b : ℤ) (q : Quadrant) (x : ℤ × ℤ)
    (h : x ≠ (a, b)) :
    (g.setQuadrant a b q).grid x.1 x.2 = g.grid x.1 x.2 := by
  rw [Galaxy.setQuadrant]
  refine if_neg fun hc => h ?_
  exact Prod.ext hc.1 hc.2

/-- Point update of a quadrant shifts a mapped sum over a list containing
that coordinate pair exactly once by the change at that point. -/
theorem sum_map_setQuadrant (g : Galaxy) (a b : ℤ) (q : Quadrant) (f : Quadrant → ℤ) :
    ∀ L : List (ℤ × ℤ), L.count (a, b) = 1 →
      (L.map (fun x => f ((g.setQuadrant a b q).grid x.1 x.2))).sum =
        (L.map (fun x => f (g.grid x.1 x.2))).sum - f (g.grid a b) + f q
  | [], h => by simp at h
  | x :: L, h => by
    by_cases hx : x = (a, b)
    · subst hx
      rw [List.count_cons_self] at h
      have hzero : L.count (a, b) = 0 := by omega
      have hnot : (a, b) ∉ L := List.count_eq_zero.mp hzero
      have hmap : L.map (fun y => f ((g.setQuadrant a b q).grid y.1 y.2)) =
          L.map (fun y => f (g.grid y.1 y.2)) := by
        refine List.map_congr_left fun y hy => ?_
        rw [setQuadrant_grid_ne g a b q y]
        intro hcontra
        rw [hcontra] at hy
        exact hnot hy
      simp only [List.map_cons, List.sum_cons, hmap, setQuadrant_grid_eq]
      ring
    · have hcount : L.count (a, b) = 1 := by
        rw [List.count_cons_of_ne (Ne.symm hx)] at h
        exact h
      have ih := sum_map_setQuadrant g a b q f L hcount
      simp only [List.map_cons, List.sum_cons, ih,
        setQuadrant_grid_ne g a b q x hx]
      ring

/-- Abstract form of the point-update principle: if two integer-valued
maps agree away from `p` and a list counts `p` exactly once, their
mapped sums differ by the change at `p`. -/
theorem sum_map_update_point (F G : ℤ × ℤ → ℤ) (p : ℤ × ℤ)
    (hne : ∀ x, x ≠ p → F x = G x) :
    ∀ L : List (ℤ × ℤ), L.count p = 1 →
      (L.map F).sum = (L.map G).sum - G p + F p
  | [], h => by simp at h
  | x :: L, h => by
    by_cases hx : x = p
    · subst hx
      rw [List.count_cons_self] at h
      have hzero : L.count x = 0 := by omega
      have hnot : x ∉ L := List.count_eq_zero.mp hzero
      have hmap : L.map F = L.map G := by
        refine List.map_congr_left fun y hy => ?_
        refine hne y fun hcontra => ?_
        rw [hcontra] at hy
        exact hnot hy
      simp only [List.map_cons, List.sum_cons, hmap]
      ring
    · have hcount : L.count p = 1 := by
        rw [List.count_cons_of_ne (Ne.symm hx)] at h
        exact h
      have ih := sum_map_update_point F G p hne L hcount
      simp only [List.map_cons, List.sum_cons, ih, hne x hx]
      ring

/-- Sums of nonnegative integer lists are nonnegative. -/
theorem list_sum_nonneg : ∀ l : List ℤ, (∀ x ∈ l, 0 ≤ x) → 0 ≤ l.sum
  | [], _ => le_refl 0
  | x :: l, h => by
    have hx := h x (List.mem_cons_self x l)
    have hl := list_sum_nonneg l fun y hy => h y (List.mem_cons_of_mem x hy)
    simp only [List.sum_cons]
    omega

/-- In a nonnegative integer list summing to zero, every member is zero. -/
theorem list_mem_zero_of_sum_zero : ∀ l : List ℤ, (∀ x ∈ l, 0 ≤ x) →
    l.sum = 0 → ∀ x ∈ l, x = 0
  | [], _, _, x, hx => absurd hx (List.not_mem_nil x)
  | y :: l, h, hsum, x, hx => by
    have hy := h y (List.mem_cons_self y l)
    have hl := list_sum_nonneg l fun z hz => h z (List.mem_cons_of_mem y hz)
    simp only [List.sum_cons] at hsum
    rcases List.mem_cons.mp hx with hxy | hxl
    · omega
    · exact list_mem_zero_of_sum_zero l
        (fun z hz => h z (List.mem_cons_of_mem y hz)) (by omega) x hxl

/-- Grid effect of one generation step away from the visited quadrant:
no other cell moves. -/
theorem genStep_grid_ne (s : GenStream) (g : Galaxy) (p x : ℤ × ℤ) (hx : x ≠ p) :
    (genStep s g p).grid x.1 x.2 = g.grid x.1 x.2 := by
  simp only [genStep]
  rw [setQuadrant_grid_ne _ _ _ _ _ hx]
  by_cases hb : s.bDraw p.1 p.2 < 1/25
  · rw [if_pos hb]
    dsimp only
    rw [setQuadrant_grid_ne _ _ _ _ _ hx]
    dsimp only
    rw [setQuadrant_grid_ne _ _ _ _ _ hx]
  · rw [if_neg hb]
    dsimp only
    rw [setQuadrant_grid_ne _ _ _ _ _ hx]

/-- Grid effect of one generation step at the visited quadrant: it
receives its Klingon draw, starbase draw and star draw. -/
theorem genStep_grid_eq (s : GenStream) (g : Galaxy) (p : ℤ × ℤ) :
    (genStep s g p).grid p.1 p.2 =
      { g.grid p.1 p.2 with
        klingons := kWeight (s.kDraw p.1 p.2)
        starbases := if s.bDraw p.1 p.2 < 1/25 then 1 else (g.grid p.1 p.2).starbases
        stars := s.sDraw p.1 p.2 } := by
  simp only [genStep]
  rw [setQuadrant_grid_eq]
  by_cases hb : s.bDraw p.1 p.2 < 1/25
  · rw [if_pos hb, if_pos hb]
    dsimp only
    rw [setQuadrant_grid_eq]
    dsimp only
    rw [setQuadrant_grid_eq]
  · rw [if_neg hb, if_neg hb]
    dsimp only
    rw [setQuadrant_grid_eq]

/-- Counter effect of one generation step. -/
theorem genStep_totals (s : GenStream) (g : Galaxy) (p : ℤ × ℤ) :
    (genStep s g p).total_klingons = g.total_klingons + kWeight (s.kDraw p.1 p.2) ∧
    (genStep s g p).total_starbases =
      g.total_starbases + (if s.bDraw p.1 p.2 < 1/25 then 1 else 0) := by
  simp only [genStep]
  by_cases hb : s.bDraw p.1 p.2 < 1/25
  · rw [if_pos hb, if_pos hb]
    exact ⟨rfl, rfl⟩
  · rw [if_neg hb, if_neg hb]
    refine ⟨rfl, ?_⟩
    simp only [Galaxy.setQuadrant]
    omega

/-- Every quadrant coordinate pair occurs in the enumeration. -/
theorem allQuadrants_counts : ∀ p ∈ allQuadrants, allQuadrants.count p = 1 := by decide

/-- The enumeration has no duplicates. -/
theorem allQuadrants_nodup : allQuadrants.Nodup := by decide

/-- A `randint(0,7)` coordinate pair occurs exactly once in the
enumeration. -/
theorem finPair_count : ∀ p : Fin 8 × Fin 8,
    allQuadrants.count ((p.1.val : ℤ), (p.2.val : ℤ)) = 1 := by decide

/-- A `randint(0,7)` coordinate pair is a member of the enumeration. -/
theorem finPair_mem : ∀ p : Fin 8 × Fin 8,
    ((p.1.val : ℤ), (p.2.val : ℤ)) ∈ allQuadrants := by decide

/-- Sum effect of one generation step on a quadrant that is still blank
(as every quadrant is when its turn comes in the pass). -/
theorem genStep_sums (s : GenStream) (g : Galaxy) (p : ℤ × ℤ)
    (hc : allQuadrants.count p = 1)
    (hk : (g.grid p.1 p.2).klingons = 0) (hbz : (g.grid p.1 p.2).starbases = 0) :
    klingonSum (genStep s g p) = klingonSum g + kWeight (s.kDraw p.1 p.2) ∧
    starbaseSum (genStep s g p) = starbaseSum g +
      (if s.bDraw p.1 p.2 < 1/25 then 1 else 0) := by
  constructor
  · have h := sum_map_update_point
      (fun x => ((genStep s g p).grid x.1 x.2).klingons)
      (fun x => (g.grid x.1 x.2).klingons) p
      (fun x hx => by
        show ((genStep s g p).grid x.1 x.2).klingons = (g.grid x.1 x.2).klingons
        rw [genStep_grid_ne s g p x hx]) allQuadrants hc
    dsimp only at h
    rw [klingonSum, klingonSum, h, genStep_grid_eq]
    dsimp only
    omega
  · have h := sum_map_update_point
      (fun x => ((genStep s g p).grid x.1 x.2).starbases)
      (fun x => (g.grid x.1 x.2).starbases) p
      (fun x hx => by
        show ((genStep s g p).grid x.1 x.2).starbases = (g.grid x.1 x.2).starbases
        rw [genStep_grid_ne s g p x hx]) allQuadrants hc
    dsimp only at h
    rw [starbaseSum, starbaseSum, h, genStep_grid_eq]
    dsimp only
    by_cases hb : s.bDraw p.1 p.2 < 1/25
    · rw [if_pos hb, if_pos hb]
      omega
    · rw [if_neg hb, if_neg hb]
      omega

/-- Invariant of the generation pass: starting from a state whose
counters match the grid sums, whose starbase counts are nonnegative and
whose still-unvisited quadrants are blank, the fold keeps the counters
equal to the grid sums and starbase counts nonnegative. -/
theorem genPass_inv (s : GenStream) :
    ∀ (L : List (ℤ × ℤ)) (g : Galaxy),
      (∀ p ∈ L, allQuadrants.count p = 1) →
      (∀ p ∈ L, (g.grid p.1 p.2).klingons = 0 ∧ (g.grid p.1 p.2).starbases = 0) →
      L.Nodup →
      g.total_klingons = klingonSum g →
      g.total_starbases = starbaseSum g →
      (∀ x : ℤ × ℤ, 0 ≤ (g.grid x.1 x.2).starbases) →
      (L.foldl (genStep s) g).total_klingons = klingonSum (L.foldl (genStep s) g) ∧
      (L.foldl (genStep s) g).total_starbases = starbaseSum (L.foldl (genStep s) g) ∧
      (∀ x : ℤ × ℤ, 0 ≤ ((L.foldl (genStep s) g).grid x.1 x.2).starbases)
  | [], g, _, _, _, hk, hb, hnn => ⟨hk, hb, hnn⟩
  | p :: L, g, hcounts, hzeros, hnodup, hk, hb, hnn => by
    simp only [List.foldl_cons]
    have hcp := hcounts p (List.mem_cons_self p L)
    have hzp := hzeros p (List.mem_cons_self p L)
    have hpnotmem : p ∉ L := (List.nodup_cons.mp hnodup).1
    have hsums := genStep_sums s g p hcp hzp.1 hzp.2
    have htot := genStep_totals s g p
    refine genPass_inv s L (genStep s g p) ?_ ?_ (List.nodup_cons.mp hnodup).2 ?_ ?_ ?_
    · exact fun q hq => hcounts q (List.mem_cons_of_mem p hq)
    · intro q hq
      have hqne : q ≠ p := fun hcontra => by
        rw [hcontra] at hq
        exact hpnotmem hq
      rw [genStep_grid_ne s g p q hqne]
      exact hzeros q (List.mem_cons_of_mem p hq)
    · rw [htot.1, hsums.1, hk]
    · rw [htot.2, hsums.2, hb]
    · intro x
      by_cases hxp : x = p
      · subst hxp
        rw [genStep_grid_eq]
        dsimp only
        by_cases hbd : s.bDraw x.1 x.2 < 1/25
        · rw [if_pos hbd]
          omega
        · rw [if_neg hbd]
          exact hnn x
      · rw [genStep_grid_ne s g p x hxp]
        exact hnn x

/-- The starbase-guarantee phase keeps the counter/sum invariants and
establishes that at least one starbase exists. -/
theorem forceStarbase_inv (s : GenStream) (g : Galaxy)
    (hk : g.total_klingons = klingonSum g)
    (hb : g.total_starbases = starbaseSum g)
    (hnn : ∀ x : ℤ × ℤ, 0 ≤ (g.grid x.1 x.2).starbases) :
    (forceStarbase s g).total_klingons = klingonSum (forceStarbase s g) ∧
    (forceStarbase s g).total_starbases = starbaseSum (forceStarbase s g) ∧
    1 ≤ (forceStarbase s g).total_starbases ∧
    (forceStarbase s g).total_klingons = g.total_klingons := by
  rw [forceStarbase]
  by_cases h0 : g.total_starbases = 0
  · rw [if_pos h0]
    have hcab := finPair_count s.forced
    have hmem := finPair_mem s.forced
    have hgz : (g.grid ((s.forced.1.val : ℤ)) ((s.forced.2.val : ℤ))).starbases = 0 := by
      refine list_mem_zero_of_sum_zero
        (allQuadrants.map (fun q => (g.grid q.1 q.2).starbases))
        (fun x hx => ?_) (by rw [← starbaseSum, ← hb, h0]) _
        (List.mem_map_of_mem _ hmem)
      obtain ⟨q, -, rfl⟩ := List.mem_map.mp hx
      exact hnn q
    have hksum := sum_map_update_point
      (fun x => (((g.setQuadrant (s.forced.1.val : ℤ) (s.forced.2.val : ℤ)
        { g.grid (s.forced.1.val : ℤ) (s.forced.2.val : ℤ) with
          starbases := 1 }).grid x.1 x.2)).klingons)
      (fun x => (g.grid x.1 x.2).klingons)
      ((s.forced.1.val : ℤ), (s.forced.2.val : ℤ))
      (fun x hx => by
        show ((g.setQuadrant _ _ _).grid x.1 x.2).klingons = (g.grid x.1 x.2).klingons
        rw [setQuadrant_grid_ne _ _ _ _ _ hx]) allQuadrants hcab
    dsimp only at hksum
    rw [setQuadrant_grid_eq] at hksum
    have hbsum := sum_map_update_point
      (fun x => (((g.setQuadrant (s.forced.1.val : ℤ) (s.forced.2.val : ℤ)
        { g.grid (s.forced.1.val : ℤ) (s.forced.2.val : ℤ) with
          starbases := 1 }).grid x.1 x.2)).starbases)
      (fun x => (g.grid x.1 x.2).starbases)
      ((s.forced.1.val : ℤ), (s.forced.2.val : ℤ))
      (fun x hx => by
        show ((g.setQuadrant _ _ _).grid x.1 x.2).starbases = (g.grid x.1 x.2).starbases
        rw [setQuadrant_grid_ne _ _ _ _ _ hx]) allQuadrants hcab
    dsimp only at hbsum
    rw [setQuadrant_grid_eq] at hbsum
    refine ⟨?_, ?_, le_refl 1, rfl⟩
    · show g.total_klingons = klingonSum (g.setQuadrant _ _ _)
      rw [klingonSum, hksum]
      dsimp only
      rw [← klingonSum]
      omega
    · show (1 : ℤ) = starbaseSum (g.setQuadrant _ _ _)
      rw [starbaseSum, hbsum]
      dsimp only
      rw [← starbaseSum]
      omega
  · rw [if_neg h0]
    have hnneg : 0 ≤ starbaseSum g := by
      refine list_sum_nonneg _ fun x hx => ?_
      obtain ⟨q, -, rfl⟩ := List.mem_map.mp hx
      exact hnn q
    exact ⟨hk, hb, by omega, rfl⟩

/-- The top-up loop preserves the counter/sum invariants, never touches
starbases, and can only return a galaxy with at least 10 Klingons. -/
theorem topUpLoop_inv (s : GenStream) :
    ∀ (fuel i : ℕ) (g g' : Galaxy),
      g.total_klingons = klingonSum g →
      g.total_starbases = starbaseSum g →
      topUpLoop s fuel i g = some g' →
      g'.total_klingons = klingonSum g' ∧
      g'.total_starbases = starbaseSum g' ∧
      10 ≤ g'.total_klingons ∧
      g'.total_starbases = g.total_starbases
  | 0, i, g, g', hk, hb, h => by
    rw [topUpLoop] at h
    by_cases h10 : 10 ≤ g.total_klingons
    · rw [if_pos h10] at h
      obtain rfl : g = g' := Option.some.inj h
      exact ⟨hk, hb, h10, rfl⟩
    · rw [if_neg h10] at h
      exact absurd h (by simp)
  | fuel + 1, i, g, g', hk, hb, h => by
    rw [topUpLoop] at h
    by_cases h10 : 10 ≤ g.total_klingons
    · rw [if_pos h10] at h
      obtain rfl : g = g' := Option.some.inj h
      exact ⟨hk, hb, h10, rfl⟩
    · rw [if_neg h10] at h
      dsimp only at h
      by_cases hlt : (g.grid ((s.topUp i).1.val : ℤ) ((s.topUp i).2.val : ℤ)).klingons < 3
      · rw [if_pos hlt] at h
        have hcab := finPair_count (s.topUp i)
        have hksum := sum_map_update_point
          (fun x => (((g.setQuadrant ((s.topUp i).1.val : ℤ) ((s.topUp i).2.val : ℤ)
            { g.grid ((s.topUp i).1.val : ℤ) ((s.topUp i).2.val : ℤ) with
              klingons := (g.grid ((s.topUp i).1.val : ℤ)
                ((s.topUp i).2.val : ℤ)).klingons + 1 }).grid x.1 x.2)).klingons)
          (fun x => (g.grid x.1 x.2).klingons)
          (((s.topUp i).1.val : ℤ), ((s.topUp i).2.val : ℤ))
          (fun x hx => by
            show ((g.setQuadrant _ _ _).grid x.1 x.2).klingons = (g.grid x.1 x.2).klingons
            rw [setQuadrant_grid_ne _ _ _ _ _ hx]) allQuadrants hcab
        dsimp only at hksum
        rw [setQuadrant_grid_eq] at hksum
        have hbsum := sum_map_update_point
          (fun x => (((g.setQuadrant ((s.topUp i).1.val : ℤ) ((s.topUp i).2.val : ℤ)
            { g.grid ((s.topUp i).1.val : ℤ) ((s.topUp i).2.val : ℤ) with
              klingons := (g.grid ((s.topUp i).1.val : ℤ)
                ((s.topUp i).2.val : ℤ)).klingons + 1 }).grid x.1 x.2)).starbases)
          (fun x => (g.grid x.1 x.2).starbases)
          (((s.topUp i).1.val : ℤ), ((s.topUp i).2.val : ℤ))
          (fun x hx => by
            show ((g.setQuadrant _ _ _).grid x.1 x.2).starbases = (g.grid x.1 x.2).starbases
            rw [setQuadrant_grid_ne _ _ _ _ _ hx]) allQuadrants hcab
        dsimp only at hbsum
        rw [setQuadrant_grid_eq] at hbsum
        have hrec := topUpLoop_inv s fuel (i + 1) _ g' ?_ ?_ h
        · exact ⟨hrec.1, hrec.2.1, hrec.2.2.1, hrec.2.2.2⟩
        · show g.total_klingons + 1 = klingonSum (g.setQuadrant _ _ _)
          rw [klingonSum, hksum]
          dsimp only
          rw [← klingonSum]
          omega
        · show g.total_starbases = starbaseSum (g.setQuadrant _ _ _)
          rw [starbaseSum, hbsum]
          dsimp only
          rw [← starbaseSum]
          omega
      · rw [if_neg hlt] at h
        exact topUpLoop_inv s fuel (i + 1) g g' hk hb h

/-- C4: for every random stream for which generation completes, the
generated galaxy has at least 10 Klingons and at least one starbase, and
each galaxy-wide counter equals the sum of the corresponding
per-quadrant counts over all 64 quadrants. -/
theorem galaxyInit_invariants (s : GenStream) (fuel : ℕ) (g : Galaxy)
    (h : galaxyInit s fuel = some g) :
    10 ≤ g.total_klingons ∧ 1 ≤ g.total_starbases ∧
    g.total_klingons = klingonSum g ∧ g.total_starbases = starbaseSum g := by
  rw [galaxyInit] at h
  cases htu : topUpLoop s fuel 0 (forceStarbase s (genPass s genStart)) with
  | none =>
    rw [htu] at h
    exact absurd h (by simp)
  | some g3 =>
    rw [htu] at h
    dsimp only at h
    have hg : g = { g3 with
        initial_klingons := g3.total_klingons
        stardate := (s.dateDraw : ℚ) * 100
        time_limit := 25 + s.timeDraw } := (Option.some.inj h).symm
    subst hg
    have hfold : genPass s genStart = allQuadrants.foldl (genStep s) genStart := rfl
    have hpass := genPass_inv s allQuadrants genStart allQuadrants_counts
      (fun p _ => ⟨rfl, rfl⟩) allQuadrants_nodup (by decide) (by decide)
      (fun x => le_refl 0)
    rw [← hfold] at hpass
    have hforce := forceStarbase_inv s (genPass s genStart) hpass.1 hpass.2.1 hpass.2.2
    have hloop := topUpLoop_inv s fuel 0 _ g3 hforce.1 hforce.2.1 htu
    refine ⟨?_, ?_, ?_, ?_⟩
    · show 10 ≤ g3.total_klingons
      exact hloop.2.2.1
    · show 1 ≤ g3.total_starbases
      rw [hloop.2.2.2]
      exact hforce.2.2.1
    · show g3.total_klingons = klingonSum g3
      exact hloop.1
    · show g3.total_starbases = starbaseSum g3
      exact hloop.2.1

/-- Concrete generation stream: every quadrant draws 3 Klingons and a
starbase, so the pass alone satisfies both minima. -/
def genW : GenStream :=
  { kDraw := fun _ _ => 0, bDraw := fun _ _ => 0, sDraw := fun _ _ => 1,
    forced := (0, 0), topUp := fun _ => (0, 0), dateDraw := 20, timeDraw := 0 }

/-- The galaxy generated from the concrete stream. -/
def galaxyW : Galaxy := (galaxyInit genW 0).getD genStart

/-- Counter effect of the whole pass: the Klingon total accumulates the
weighted draws. -/
theorem genPass_total_k (s : GenStream) :
    ∀ (L : List (ℤ × ℤ)) (g : Galaxy),
      (L.foldl (genStep s) g).total_klingons =
        g.total_klingons + (L.map (fun p => kWeight (s.kDraw p.1 p.2))).sum
  | [], g => by simp
  | p :: L, g => by
    simp only [List.foldl_cons, List.map_cons, List.sum_cons]
    rw [genPass_total_k s L (genStep s g p), (genStep_totals s g p).1]
    ring

/-- Counter effect of the whole pass: the starbase total accumulates the
4% draws. -/
theorem genPass_total_b (s : GenStream) :
    ∀ (L : List (ℤ × ℤ)) (g : Galaxy),
      (L.foldl (genStep s) g).total_starbases =
        g.total_starbases +
          (L.map (fun p => if s.bDraw p.1 p.2 < 1/25 then (1 : ℤ) else 0)).sum
  | [], g => by simp
  | p :: L, g => by
    simp only [List.foldl_cons, List.map_cons, List.sum_cons]
    rw [genPass_total_b s L (genStep s g p), (genStep_totals s g p).2]
    ring

/-- On the concrete stream every quadrant draws 3 Klingons. -/
theorem genW_pass_k : (genPass genW genStart).total_klingons = 192 := by
  rw [genPass, genPass_total_k]
  have hmap : allQuadrants.map (fun p => kWeight (genW.kDraw p.1 p.2)) =
      allQuadrants.map (fun _ => (3 : ℤ)) := by
    refine List.map_congr_left fun p _ => ?_
    show kWeight 0 = 3
    norm_num [kWeight]
  rw [hmap]
  decide

/-- On the concrete stream every quadrant draws a starbase. -/
theorem genW_pass_b : (genPass genW genStart).total_starbases = 64 := by
  rw [genPass, genPass_total_b]
  have hmap : allQuadrants.map
      (fun p => if genW.bDraw p.1 p.2 < 1/25 then (1 : ℤ) else 0) =
      allQuadrants.map (fun _ => (1 : ℤ)) := by
    refine List.map_congr_left fun p _ => ?_
    show (if (0 : ℚ) < 1/25 then (1 : ℤ) else 0) = 1
    norm_num
  rw [hmap]
  decide

/-- Generation on the concrete stream completes with zero top-up fuel. -/
theorem galaxyW_some : galaxyInit genW 0 = some galaxyW := by
  have hforce : forceStarbase genW (genPass genW genStart) = genPass genW genStart := by
    rw [forceStarbase, if_neg]
    rw [genW_pass_b]
    norm_num
  have htu : topUpLoop genW 0 0 (forceStarbase genW (genPass genW genStart)) =
      some (forceStarbase genW (genPass genW genStart)) := by
    rw [topUpLoop, if_pos]
    rw [hforce, genW_pass_k]
    norm_num
  rw [galaxyW, galaxyInit, htu]
  rfl

/-- C4 witness: generation completes on the concrete stream with zero
top-up fuel and the invariants hold for the produced galaxy. -/
theorem galaxyInit_invariants_witness :
    10 ≤ galaxyW.total_klingons ∧ 1 ≤ galaxyW.total_starbases ∧
    galaxyW.total_klingons = klingonSum galaxyW ∧
    galaxyW.total_starbases = starbaseSum galaxyW :=
  galaxyInit_invariants genW 0 galaxyW galaxyW_some

/-! ### Geometry (combat.py) and claim C7 -/

/-- CPython `int(x)` on a float: truncation toward zero. -/
noncomputable def pyTrunc (x : ℝ) : ℤ := if 0 ≤ x then ⌊x⌋ else ⌈x⌉

/-- CPython `round(x)` on a float: round half to even. -/
noncomputable def pyRound (x : ℝ) : ℤ :=
  if x - ⌊x⌋ < 1/2 then ⌊x⌋
  else if 1/2 < x - ⌊x⌋ then ⌊x⌋ + 1
  else if Even ⌊x⌋ then ⌊x⌋ else ⌊x⌋ + 1

/-- Truncation of an integer is itself. -/
theorem pyTrunc_intCast (n : ℤ) : pyTrunc (n : ℝ) = n := by
  rw [pyTrunc]
  split_ifs <;> simp

/-- Rounding an integer is itself. -/
theorem pyRound_intCast (n : ℤ) : pyRound (n : ℝ) = n := by
  rw [pyRound, Int.floor_intCast]
  rw [if_pos]
  norm_num

/-- Embedding of calculate_distance: Euclidean distance on sector
coordinates. -/
noncomputable def calculate_distance (r1 c1 r2 c2 : ℤ) : ℝ :=
  Real.sqrt (((r1 - r2 : ℤ) : ℝ) ^ 2 + ((c1 - c2 : ℤ) : ℝ) ^ 2)

/-- Semantics of `math.atan2 y x` (C99 atan2 on finite inputs). -/
noncomputable def atan2 (y x : ℝ) : ℝ :=
  if 0 < x then Real.arctan (y / x)
  else if x = 0 then
    if 0 < y then Real.pi / 2 else if y < 0 then -(Real.pi / 2) else 0
  else
    if 0 ≤ y then Real.arctan (y / x) + Real.pi
    else Real.arctan (y / x) - Real.pi

/-- The atan2 angle lies in (-π, π]. -/
theorem atan2_bounds (y x : ℝ) : -Real.pi < atan2 y x ∧ atan2 y x ≤ Real.pi := by
  have hpi := Real.pi_pos
  have h1 := Real.arctan_lt_pi_div_two (y / x)
  have h2 := Real.neg_pi_div_two_lt_arctan (y / x)
  rw [atan2]
  split_ifs with hx hx0 hy hy' hy0
  · constructor <;> linarith
  · constructor <;> linarith
  · constructor <;> linarith
  · constructor <;> linarith
  · -- x < 0, 0 ≤ y: y / x ≤ 0 so arctan (y / x) ≤ 0
    have hxneg : x < 0 := by
      rcases lt_trichotomy x 0 with h | h | h
      · exact h
      · exact absurd h hx0
      · exact absurd h hx
    have hdiv : y / x ≤ 0 := div_nonpos_of_nonneg_of_nonpos hy0 (le_of_lt hxneg)
    have harc : Real.arctan (y / x) ≤ 0 := by
      have := Real.arctan_strictMono.monotone hdiv
      rwa [Real.arctan_zero] at this
    constructor <;> linarith
  · -- x < 0, y < 0: y / x > 0 so arctan (y / x) > 0
    have hxneg : x < 0 := by
      rcases lt_trichotomy x 0 with h | h | h
      · exact h
      · exact absurd h hx0
      · exact absurd h hx
    have hyneg : y < 0 := by
      rcases lt_trichotomy y 0 with h | h | h
      · exact h
      · exact absurd (le_of_eq h.symm) hy0
      · exact absurd (le_of_lt h) hy0
    have hdiv : 0 < y / x := div_pos_of_neg_of_neg hyneg hxneg
    have harc : 0 < Real.arctan (y / x) := by
      have := Real.arctan_strictMono hdiv
      rwa [Real.arctan_zero] at this
    constructor <;> linarith

/-- Embedding of calculate_torpedo_direction: the 1–9 compass direction
from the ship to a target sector, via `1 + atan2(-Δrow, Δcol)·4/π`
wrapped into [1,9]; a zero delta returns 1.0. -/
noncomputable def calculate_torpedo_direction (e : Enterprise) (tr tc : ℤ) : ℝ :=
  let dr : ℤ := tr - e.sector_row
  let dc : ℤ := tc - e.sector_col
  if dr = 0 ∧ dc = 0 then 1
  else
    let angle := atan2 (-(dr : ℝ)) (dc : ℝ)
    let d0 : ℝ := 1 + angle * 4 / Real.pi
    let d1 : ℝ := if d0 < 1 then d0 + 8 else d0
    if 9 < d1 then d1 - 8 else d1

/-- C7: the 1–9 direction computation returns 1.0 due east and 3.0 due
north, maps a zero delta to 1.0, and always lands in [1, 9]. -/
theorem calculate_torpedo_direction_spec :
    calculate_torpedo_direction Enterprise.initial 0 1 = 1 ∧
    calculate_torpedo_direction Enterprise.initial (-1) 0 = 3 ∧
    (∀ e : Enterprise, calculate_torpedo_direction e e.sector_row e.sector_col = 1) ∧
    (∀ (e : Enterprise) (tr tc : ℤ),
      1 ≤ calculate_torpedo_direction e tr tc ∧
      calculate_torpedo_direction e tr tc ≤ 9) := by
  have hpi := Real.pi_pos
  have hpine := Real.pi_ne_zero
  refine ⟨?_, ?_, fun e => ?_, fun e tr tc => ?_⟩
  · simp only [calculate_torpedo_direction, Enterprise.initial]
    norm_num
    rw [atan2, if_pos one_pos]
    norm_num [Real.arctan_zero]
  · simp only [calculate_torpedo_direction, Enterprise.initial]
    norm_num
    rw [atan2, if_neg (lt_irrefl 0), if_pos rfl, if_pos one_pos]
    have hq : Real.pi / 2 * 4 / Real.pi = 2 := by
      field_simp
      ring
    rw [hq]
    norm_num
  · simp only [calculate_torpedo_direction]
    norm_num
  · simp only [calculate_torpedo_direction]
    by_cases h0 : tr - e.sector_row = 0 ∧ tc - e.sector_col = 0
    · rw [if_pos h0]
      norm_num
    · rw [if_neg h0]
      obtain ⟨ha1, ha2⟩ := atan2_bounds (-((tr - e.sector_row : ℤ) : ℝ))
        ((tc - e.sector_col : ℤ) : ℝ)
      set a := atan2 (-((tr - e.sector_row : ℤ) : ℝ)) ((tc - e.sector_col : ℤ) : ℝ)
        with ha
      have ht1 : a * 4 / Real.pi ≤ 4 := by
        rw [div_le_iff₀ hpi]
        nlinarith
      have ht2 : -4 < a * 4 / Real.pi := by
        rw [lt_div_iff₀ hpi]
        nlinarith
      by_cases hw : 1 + a * 4 / Real.pi < 1
      · rw [if_pos hw, if_neg (by linarith)]
        constructor <;> linarith
      · rw [if_neg hw, if_neg (by linarith)]
        constructor <;> linarith

/-! ### Claim C1: phaser fire and the overheat branch -/

/-- Result of a combat action (combat.py, dataclass CombatResult);
the message string is dropped. -/
structure CombatResult where
  success : Bool
  klingons_destroyed : ℤ
  damage_dealt : List (ℤ × ℤ × ℤ)
deriving DecidableEq, Repr

/-- Random draws consumed by one call of fire_phasers: the overheat
roll, the `uniform(1.0, 3.0)` overheat magnitude (drawn before the
crash, see below), and the `uniform(2.0, 3.0)` multiplier per target. -/
structure PhaserOracle where
  overheatRoll : ℚ
  overheatMag : ℚ
  mult : ℕ → ℝ

/-- Per-target loop of fire_phasers: returns the updated ship list, the
list of destroyed Klingons (removed afterwards), the damage log, and the
destroyed count. -/
noncomputable def phaserVolley (e : Enterprise) (ept : ℝ) (o : PhaserOracle) :
    List Klingon → ℕ → List Klingon × List Klingon × List (ℤ × ℤ × ℤ) × ℤ
  | [], _ => ([], [], [], 0)
  | k :: ks, i =>
    let dist0 := calculate_distance e.sector_row e.sector_col k.sector_row k.sector_col
    let dist := if dist0 < 0.1 then 0.1 else dist0
    let damage := pyTrunc (ept / dist * o.mult i)
    let rest := phaserVolley e ept o ks (i + 1)
    if k.energy ≤ damage then
      (k :: rest.1, k :: rest.2.1,
        (k.sector_row, k.sector_col, damage) :: rest.2.2.1, rest.2.2.2 + 1)
    else
      ({ k with energy := k.energy - damage } :: rest.1, rest.2.1,
        (k.sector_row, k.sector_col, damage) :: rest.2.2.1, rest.2.2.2)

/-- Removal pass after the volley; a False flag reports a propagating
IndexError from remove_klingon (impossible on well-formed quadrants). -/
def removeKlingons : Quadrant → List Klingon → Quadrant × Bool
  | q, [] => (q, true)
  | q, k :: ks =>
    match q.remove_klingon k.sector_row k.sector_col with
    | .ok pr => removeKlingons pr.2 ks
    | _ => (q, false)

/-- Embedding of fire_phasers.  The returned triple carries the ship and
quadrant state (mutations persist even when an exception escapes) and
the result.  In the overheat branch the source executes
`enterprise.damage[enterprise.damage.__class__.PHASER_CONTROL] = -random.uniform(1.0, 3.0)`;
`enterprise.damage` is a plain dict and the class `dict` has no attribute
PHASER_CONTROL, so the line raises AttributeError after the energy was
already consumed and without damaging any system. -/
noncomputable def fire_phasers (e : Enterprise) (q : Quadrant) (energy_amount : ℤ)
    (o : PhaserOracle) : Enterprise × Quadrant × Res CombatResult :=
  if ! e.can_fire_phasers then (e, q, .ok ⟨false, 0, []⟩)
  else if energy_amount ≤ 0 then (e, q, .ok ⟨false, 0, []⟩)
  else if e.energy < energy_amount then (e, q, .ok ⟨false, 0, []⟩)
  else if q.klingon_ships = [] then (e, q, .ok ⟨false, 0, []⟩)
  else
    let e1 := (e.use_energy energy_amount).2
    if 1500 < energy_amount ∧
        o.overheatRoll < ((energy_amount : ℚ) - 1500) / 1500 then
      (e1, q, .exn)
    else
      let ept : ℝ := (energy_amount : ℝ) / (q.klingon_ships.length : ℝ)
      let v := phaserVolley e1 ept o q.klingon_ships 0
      let q1 := { q with klingon_ships := v.1 }
      let rem := removeKlingons q1 v.2.1
      if rem.2 then (e1, rem.1, .ok ⟨true, v.2.2.2, v.2.2.1⟩)
      else (e1, rem.1, .exn)

/-- The empty 8×8 sector map. -/
def emptyMap8 : List (List EntityType) := List.replicate 8 emptyRow

/-- Concrete quadrant with one Klingon at sector (4,4). -/
def phQuadrant : Quadrant :=
  { Quadrant.blank 0 0 with
    klingons := 1
    sector_map := emptyMap8.set 4 (emptyRow.set 4 .klingon)
    klingon_ships := [⟨4, 4, 300⟩] }

/-- Oracle whose overheat roll (1/2) is below the overheat chance 1 of a
3000-unit shot, so the overheat branch is taken deterministically. -/
noncomputable def phOracle : PhaserOracle := ⟨1/2, 2, fun _ => 2⟩

/-- C1: firing phasers with 3000 units (overheat chance (3000-1500)/1500
= 1) does not damage the phaser system and return a failure result as
the claim states; the source instead raises AttributeError
(`dict` has no attribute PHASER_CONTROL) after consuming the energy:
the run crashes, the energy is gone, and the phaser system's damage
entry is untouched. -/
theorem fire_phasers_overheat_crash :
    (fire_phasers Enterprise.initial phQuadrant 3000 phOracle).2.2 = Res.exn ∧
    (fire_phasers Enterprise.initial phQuadrant 3000 phOracle).1.energy = 0 ∧
    (fire_phasers Enterprise.initial phQuadrant 3000 phOracle).1.damage
      ShipSystem.phaser_control = 0 := by
  have hover : (1 : ℚ)/2 < (((3000 : ℤ) : ℚ) - 1500) / 1500 := by norm_num
  rw [fire_phasers]
  rw [if_neg (by decide), if_neg (by decide), if_neg (by decide), if_neg (by decide),
    if_pos ⟨by decide, hover⟩]
  exact ⟨rfl, by decide, by decide⟩

/-! ### Claim C2: torpedo fire into a starbase -/

/-- The nine-entry direction table of fire_torpedo (combat.py);
a key outside 1–9 would raise KeyError. -/
def direction_deltas : ℤ → Res (ℤ × ℤ)
  | 1 => .ok (0, 1)
  | 2 => .ok (-1, 1)
  | 3 => .ok (-1, 0)
  | 4 => .ok (-1, -1)
  | 5 => .ok (0, -1)
  | 6 => .ok (1, -1)
  | 7 => .ok (1, 0)
  | 8 => .ok (1, 1)
  | 9 => .ok (0, 1)
  | _ => .exn

/-- Step vector of fire_torpedo: fractional directions interpolate
between the floor direction and the next one, then the vector is
normalized to unit length (step_size = 1.0). -/
noncomputable def torpedo_step (direction : ℝ) : Res (ℝ × ℝ) := do
  let base0 := pyTrunc direction
  let base_dir := if base0 = 9 then 1 else base0
  let fraction : ℝ := direction - ((pyTrunc direction : ℤ) : ℝ)
  let next_dir := if base_dir < 8 then base_dir + 1 else 1
  let d1 ← direction_deltas base_dir
  let d2 ← direction_deltas next_dir
  let dr : ℝ := (d1.1 : ℝ) * (1 - fraction) + (d2.1 : ℝ) * fraction
  let dc : ℝ := (d1.2 : ℝ) * (1 - fraction) + (d2.2 : ℝ) * fraction
  if dr ≠ 0 ∨ dc ≠ 0 then
    let m := Real.sqrt (dr ^ 2 + dc ^ 2)
    pure (dr / m, dc / m)
  else
    pure (dr, dc)

/-- What the traced torpedo path first encounters. -/
inductive TorpedoHit where
  | leftQuadrant
  | klingon (row col : ℤ)
  | star (row col : ℤ)
  | starbase (row col : ℤ)
  | exhausted
deriving DecidableEq, Repr

/-- The 15-step torpedo trace of fire_torpedo: advance by the step
vector, round to the nearest sector, leave on out-of-bounds, stop on the
first Klingon, star or starbase; anything else (EMPTY or the ship's own
cell) is passed through. -/
noncomputable def torpedo_walk (q : Quadrant) (dr dc : ℝ) :
    ℕ → ℝ → ℝ → Res TorpedoHit
  | 0, _, _ => .ok .exhausted
  | n + 1, cr, cc =>
    let cr' := cr + dr
    let cc' := cc + dc
    let row := pyRound cr'
    let col := pyRound cc'
    if row < 0 ∨ 8 ≤ row ∨ col < 0 ∨ 8 ≤ col then .ok .leftQuadrant
    else
      match q.get_entity_at row col with
      | .ok EntityType.klingon => .ok (.klingon row col)
      | .ok EntityType.star => .ok (.star row col)
      | .ok EntityType.starbase => .ok (.starbase row col)
      | .ok _ => torpedo_walk q dr dc n cr' cc'
      | .exn => .exn
      | .spin => .spin

/-- Embedding of fire_torpedo (combat.py).  On a starbase hit the
quadrant's starbase count, cached position and map cell are cleared —
and nothing else: in particular no galaxy-level call is made here. -/
noncomputable def fire_torpedo (e : Enterprise) (q : Quadrant) (direction : ℝ) :
    Enterprise × Quadrant × Res CombatResult :=
  if ! e.can_fire_torpedoes then (e, q, .ok ⟨false, 0, []⟩)
  else if e.torpedoes ≤ 0 then (e, q, .ok ⟨false, 0, []⟩)
  else if direction < 1 ∨ 9 < direction then (e, q, .ok ⟨false, 0, []⟩)
  else
    let fe := e.fire_torpedo
    if ! fe.1 then (fe.2, q, .ok ⟨false, 0, []⟩)
    else
      let e1 := fe.2
      match torpedo_step direction with
      | .exn => (e1, q, .exn)
      | .spin => (e1, q, .spin)
      | .ok d =>
        match torpedo_walk q d.1 d.2 15 (e1.sector_row : ℝ) (e1.sector_col : ℝ) with
        | .exn => (e1, q, .exn)
        | .spin => (e1, q, .spin)
        | .ok .leftQuadrant => (e1, q, .ok ⟨true, 0, []⟩)
        | .ok .exhausted => (e1, q, .ok ⟨true, 0, []⟩)
        | .ok (.klingon r c) =>
          match q.remove_klingon r c with
          | .ok pr => (e1, pr.2, .ok ⟨true, 1, []⟩)
          | _ => (e1, q, .exn)
        | .ok (.star _ _) => (e1, q, .ok ⟨true, 0, []⟩)
        | .ok (.starbase r c) =>
          let q1 := { q with starbases := 0, starbase_pos := none }
          match pySet2 q1.sector_map r c .empty with
          | .ok m => (e1, { q1 with sector_map := m }, .ok ⟨true, 0, []⟩)
          | _ => (e1, q1, .exn)

/-- Player-facing result of a command (commands.py, CommandResult);
the message string is dropped. -/
structure CmdResult where
  success : Bool
  time_used : ℝ
  trigger_klingon_attack : Bool

/-- Embedding of the core of CommandHandler.execute_tor once the course
has been read and parsed: tube/ammunition/range checks, the shot, and
one galaxy.klingon_destroyed() call per destroyed Klingon.  Nothing in
this handler (nor in fire_torpedo) touches galaxy.total_starbases.  A
missing current quadrant or an escaping exception is reported as exn
(the embedding drops the partially mutated state in that unreachable
case). -/
noncomputable def execute_tor (g : Galaxy) (e : Enterprise) (direction : ℝ) :
    Res (Galaxy × Enterprise × CmdResult) :=
  if ! e.can_fire_torpedoes then .ok (g, e, ⟨false, 0, false⟩)
  else if e.torpedoes ≤ 0 then .ok (g, e, ⟨false, 0, false⟩)
  else if direction < 1 ∨ 9 < direction then .ok (g, e, ⟨false, 0, false⟩)
  else
    match g.get_quadrant e.quadrant_row e.quadrant_col with
    | none => .exn
    | some q =>
      let r := fire_torpedo e q direction
      let q1 := r.2.1
      let g1 := g.setQuadrant e.quadrant_row e.quadrant_col q1
      match r.2.2 with
      | .exn => .exn
      | .spin => .spin
      | .ok res =>
        let g2 :=
          if 0 < res.klingons_destroyed then
            { g1 with total_klingons := g1.total_klingons - res.klingons_destroyed }
          else g1
        .ok (g2, r.1, ⟨res.success, 0, decide (0 < q1.klingons)⟩)

/-- Concrete quadrant for C2: the ship at sector (3,3), a starbase one
cell east at (3,4), consistent caches, no Klingons. -/
def torQuadrant : Quadrant :=
  { Quadrant.blank 0 0 with
    starbases := 1
    sector_map := emptyMap8.set 3 ((emptyRow.set 4 .starbase).set 3 .enterprise)
    starbase_pos := some (3, 4) }

/-- Concrete galaxy for C2: the torpedo quadrant at (0,0), one starbase
galaxy-wide. -/
def torGalaxy : Galaxy :=
  { grid := fun r c => if r = 0 ∧ c = 0 then torQuadrant else Quadrant.blank r c,
    total_klingons := 10, total_starbases := 1, initial_klingons := 10,
    stardate := 2000, time_limit := 30 }

/-- Concrete ship for C2, sitting at sector (3,3) of quadrant (0,0). -/
def torShip : Enterprise :=
  { Enterprise.initial with sector_row := 3, sector_col := 3 }

/-- The sector map after the torpedo clears the starbase cell. -/
def torMapAfter : List (List EntityType) :=
  emptyMap8.set 3 (((emptyRow.set 4 .starbase).set 3 .enterprise).set 4 .empty)

/-- The quadrant after the starbase is destroyed. -/
def torQuadrantAfter : Quadrant :=
  { torQuadrant with
    starbases := 0
    starbase_pos := none
    sector_map := torMapAfter }

/-- Direction 1.0 yields the unit east step vector. -/
theorem torpedo_step_one : torpedo_step 1 = Res.ok (0, 1) := by
  rw [torpedo_step]
  have htr : pyTrunc (1 : ℝ) = 1 := by
    have : ((1 : ℤ) : ℝ) = (1 : ℝ) := by norm_num
    rw [← this, pyTrunc_intCast]
  rw [htr]
  norm_num [direction_deltas]
  show Res.bind (Res.ok ((0 : ℤ), (1 : ℤ))) _ = _
  rw [Res.bind]
  show Res.bind (Res.ok ((-1 : ℤ), (1 : ℤ))) _ = _
  rw [Res.bind]
  norm_num
  rfl

/-- The east-bound trace from (3,3) hits the starbase at (3,4) on its
first step. -/
theorem torpedo_walk_c2 :
    torpedo_walk torQuadrant 0 1 15 ((3 : ℤ) : ℝ) ((3 : ℤ) : ℝ) =
      Res.ok (TorpedoHit.starbase 3 4) := by
  show torpedo_walk torQuadrant 0 1 (14 + 1) ((3 : ℤ) : ℝ) ((3 : ℤ) : ℝ) = _
  rw [torpedo_walk]
  have h1 : ((3 : ℤ) : ℝ) + 0 = ((3 : ℤ) : ℝ) := by ring
  have h2 : ((3 : ℤ) : ℝ) + 1 = ((4 : ℤ) : ℝ) := by push_cast; ring
  rw [h1, h2, pyRound_intCast, pyRound_intCast, if_neg (by decide)]
  have hent : torQuadrant.get_entity_at 3 4 = Res.ok EntityType.starbase := by decide
  rw [hent]

/-- The concrete shot: one torpedo spent, quadrant starbase cleared,
successful result, no Klingons destroyed. -/
theorem fire_torpedo_c2 :
    fire_torpedo torShip torQuadrant 1 =
      ({ torShip with torpedoes := 9 }, torQuadrantAfter, Res.ok ⟨true, 0, []⟩) := by
  rw [fire_torpedo]
  rw [if_neg (by decide), if_neg (by decide), if_neg (by norm_num)]
  have hfe : torShip.fire_torpedo = (true, { torShip with torpedoes := 9 }) := by
    have h9 : torShip.torpedoes - 1 = 9 := by decide
    rw [Enterprise.fire_torpedo, if_pos (by decide), h9]
  rw [hfe]
  dsimp only
  rw [if_neg (by decide), torpedo_step_one]
  dsimp only
  rw [show torShip.sector_row = 3 from rfl, show torShip.sector_col = 3 from rfl,
    torpedo_walk_c2]
  dsimp only
  have hset : pySet2 torQuadrant.sector_map 3 4 EntityType.empty =
      Res.ok torMapAfter := by decide
  rw [hset]
  rfl

/-- C2: the torpedo that hits the starbase clears the quadrant's
starbase (count, cached position and map cell) and stops — but the
galaxy-wide starbase counter is NOT decremented: total_starbases is
still 1 after the shot (Galaxy.starbase_destroyed is never called).
The quadrant-local clearing matches the claim; the claimed galaxy
counter decrement does not happen. -/
theorem execute_tor_starbase_desync :
    execute_tor torGalaxy torShip 1 =
      Res.ok (torGalaxy.setQuadrant 0 0 torQuadrantAfter,
        { torShip with torpedoes := 9 }, ⟨true, 0, false⟩) ∧
    (torGalaxy.setQuadrant 0 0 torQuadrantAfter).total_starbases = 1 ∧
    torQuadrantAfter.starbases = 0 ∧
    torQuadrantAfter.starbase_pos = none ∧
    pyGet2 torMapAfter 3 4 = Res.ok EntityType.empty := by
  refine ⟨?_, rfl, rfl, rfl, by decide⟩
  rw [execute_tor]
  rw [if_neg (by decide), if_neg (by decide), if_neg (by norm_num)]
  have hq : torGalaxy.get_quadrant torShip.quadrant_row torShip.quadrant_col =
      some torQuadrant := rfl
  rw [hq]
  dsimp only
  rw [fire_torpedo_c2]
  dsimp only
  rw [if_neg (by decide)]
  rfl

/-! ### Claim C3: navigation and the galactic barrier -/

/-- Random draws consumed during navigation: the `randint(0,7)` cell
pair stream (indexed by a draw counter), the `randint(0,299)` Klingon
energy offsets, and the fuel bounding each rejection-sampling loop. -/
structure NavOracle where
  cellDraw : ℕ → Fin 8 × Fin 8
  kEnergyDraw : ℕ → ℤ
  fuel : ℕ

/-- Embedding of Quadrant._find_empty_sector: redraw random cells until
an empty one is found (fuel-bounded; `spin` cannot occur in real runs
since at most 13 of 64 cells are occupied). -/
def find_empty_sector (m : List (List EntityType)) (o : NavOracle) :
    ℕ → ℕ → Res ((ℤ × ℤ) × ℕ)
  | 0, _ => .spin
  | f + 1, i =>
    let r : ℤ := ((o.cellDraw i).1.val : ℤ)
    let c : ℤ := ((o.cellDraw i).2.val : ℤ)
    match pyGet2 m r c with
    | .ok EntityType.empty => .ok ((r, c), i + 1)
    | .ok _ => find_empty_sector m o f (i + 1)
    | .exn => .exn
    | .spin => .spin

/-- Klingon placement loop of Quadrant.initialize_sector_map; each
placed ship draws its energy 300 + randint(0,299). -/
def place_klingons (o : NavOracle) :
    ℕ → List (List EntityType) → List Klingon → ℕ →
      Res (List (List EntityType) × List Klingon × ℕ)
  | 0, m, ks, i => .ok (m, ks, i)
  | n + 1, m, ks, i =>
    match find_empty_sector m o o.fuel i with
    | .ok pc =>
      match pySet2 m pc.1.1 pc.1.2 .klingon with
      | .ok m' =>
        place_klingons o n m' (ks ++ [⟨pc.1.1, pc.1.2, 300 + o.kEnergyDraw pc.2⟩])
          (pc.2 + 1)
      | .exn => .exn
      | .spin => .spin
    | .exn => .exn
    | .spin => .spin

/-- Star placement loop of Quadrant.initialize_sector_map. -/
def place_stars (o : NavOracle) :
    ℕ → List (List EntityType) → List (ℤ × ℤ) → ℕ →
      Res (List (List EntityType) × List (ℤ × ℤ) × ℕ)
  | 0, m, st, i => .ok (m, st, i)
  | n + 1, m, st, i =>
    match find_empty_sector m o o.fuel i with
    | .ok pc =>
      match pySet2 m pc.1.1 pc.1.2 .star with
      | .ok m' => place_stars o n m' (st ++ [(pc.1.1, pc.1.2)]) pc.2
      | .exn => .exn
      | .spin => .spin
    | .exn => .exn
    | .spin => .spin

/-- Embedding of Quadrant.initialize_sector_map: a fresh empty 8×8 grid,
then Klingons, an optional starbase, and stars at rejection-sampled
empty cells; the derived caches are rebuilt from scratch. -/
def init_sector_map (q : Quadrant) (o : NavOracle) (i : ℕ) : Res (Quadrant × ℕ) :=
  let m0 : List (List EntityType) := List.replicate 8 (List.replicate 8 .empty)
  match place_klingons o q.klingons.toNat m0 [] i with
  | .exn => .exn
  | .spin => .spin
  | .ok km =>
    let afterSb : Res (List (List EntityType) × Option (ℤ × ℤ) × ℕ) :=
      if 0 < q.starbases then
        match find_empty_sector km.1 o o.fuel km.2.2 with
        | .ok pc =>
          match pySet2 km.1 pc.1.1 pc.1.2 .starbase with
          | .ok m2 => .ok (m2, some (pc.1.1, pc.1.2), pc.2)
          | .exn => .exn
          | .spin => .spin
        | .exn => .exn
        | .spin => .spin
      else .ok (km.1, none, km.2.2)
    match afterSb with
    | .exn => .exn
    | .spin => .spin
    | .ok sb =>
      match place_stars o q.stars.toNat sb.1 [] sb.2.2 with
      | .exn => .exn
      | .spin => .spin
      | .ok stm =>
        .ok ({ q with
                sector_map := stm.1
                klingon_ships := km.2.1
                starbase_pos := sb.2.1
                star_positions := stm.2.1 }, stm.2.2)

/-- Embedding of Quadrant.place_enterprise: initialize the sector map if
absent, rejection-sample a new cell if the requested one is occupied,
mark the cell, and return the actual placement. -/
def place_enterprise (q : Quadrant) (o : NavOracle) (row col : ℤ) (i : ℕ) :
    Res ((ℤ × ℤ) × Quadrant × ℕ) :=
  match (if q.sector_map = [] then init_sector_map q o i else .ok (q, i)) with
  | .exn => .exn
  | .spin => .spin
  | .ok qi =>
    let q1 := qi.1
    match pyGet2 q1.sector_map row col with
    | .exn => .exn
    | .spin => .spin
    | .ok ent =>
      match (if ent ≠ EntityType.empty then find_empty_sector q1.sector_map o o.fuel qi.2
             else .ok ((row, col), qi.2)) with
      | .exn => .exn
      | .spin => .spin
      | .ok pc =>
        match pySet2 q1.sector_map pc.1.1 pc.1.2 .enterprise with
        | .ok m' => .ok (pc.1, { q1 with sector_map := m' }, pc.2)
        | .exn => .exn
        | .spin => .spin

/-- The eight-entry direction table of execute_nav (commands.py); note
it has no key 9 — a lookup outside 1–8 would raise KeyError. -/
def nav_direction_deltas : ℤ → Res (ℤ × ℤ)
  | 1 => .ok (0, 1)
  | 2 => .ok (-1, 1)
  | 3 => .ok (-1, 0)
  | 4 => .ok (-1, -1)
  | 5 => .ok (0, -1)
  | 6 => .ok (1, -1)
  | 7 => .ok (1, 0)
  | 8 => .ok (1, 1)
  | _ => .exn

/-- Direction vector of execute_nav: floor/next interpolation by the
fractional part, normalized when the magnitude is positive. -/
noncomputable def nav_deltas (course : ℝ) : Res (ℝ × ℝ) := do
  let base_dir := if course < 9 then pyTrunc course else 1
  let fraction : ℝ := course - ((pyTrunc course : ℤ) : ℝ)
  let next_dir := if base_dir < 8 then base_dir + 1 else 1
  let d1 ← nav_direction_deltas base_dir
  let d2 ← nav_direction_deltas next_dir
  let dr0 : ℝ := (d1.1 : ℝ) * (1 - fraction) + (d2.1 : ℝ) * fraction
  let dc0 : ℝ := (d1.2 : ℝ) * (1 - fraction) + (d2.2 : ℝ) * fraction
  let m := Real.sqrt (dr0 ^ 2 + dc0 ^ 2)
  if 0 < m then pure (dr0 / m, dc0 / m) else pure (dr0, dc0)

/-- Continuous navigation state: quadrant coordinates, real-valued
sector coordinates, and the crossed-a-boundary flag. -/
structure NavState where
  qr : ℤ
  qc : ℤ
  sr : ℝ
  sc : ℝ
  crossed : Bool

/-- One iteration of the execute_nav movement loop: advance by the
direction vector and wrap each sector coordinate by ±8, adjusting the
quadrant coordinate (row first, then column, as in the source). -/
noncomputable def nav_step (dr dc : ℝ) (s : NavState) : NavState :=
  let sr' := s.sr + dr
  let sc' := s.sc + dc
  let s1 : NavState :=
    if sr' < 0 then ⟨s.qr - 1, s.qc, sr' + 8, sc', true⟩
    else if 8 ≤ sr' then ⟨s.qr + 1, s.qc, sr' - 8, sc', true⟩
    else ⟨s.qr, s.qc, sr', sc', s.crossed⟩
  if sc' < 0 then { s1 with qc := s1.qc - 1, sc := sc' + 8, crossed := true }
  else if 8 ≤ sc' then { s1 with qc := s1.qc + 1, sc := sc' - 8, crossed := true }
  else s1

/-- The sector-by-sector movement loop with the galactic-barrier check
after every step; `none` reports the barrier abort. -/
noncomputable def navSteps (dr dc : ℝ) : ℕ → NavState → Option NavState
  | 0, s => some s
  | n + 1, s =>
    let s' := nav_step dr dc s
    if s'.qr < 0 ∨ 8 ≤ s'.qr ∨ s'.qc < 0 ∨ 8 ≤ s'.qc then none
    else navSteps dr dc n s'

/-- Embedding of the core of CommandHandler.execute_nav once course and
warp have been read and parsed: engine/range checks, the warp-0 no-op,
the energy requirement, undocking, the movement loop with barrier abort
(restoring the Enterprise cell and deducting no energy), and on success
the energy deduction, placement (with fresh map initialization if a
quadrant boundary was crossed), auto-docking and time accounting. -/
noncomputable def execute_nav (g : Galaxy) (e : Enterprise) (course warp : ℝ)
    (o : NavOracle) : Res (Galaxy × Enterprise × CmdResult) :=
  if ! e.can_warp then .ok (g, e, ⟨false, 0, false⟩)
  else if course < 1 ∨ 9 < course then .ok (g, e, ⟨false, 0, false⟩)
  else if warp < 0 ∨ 8 < warp then .ok (g, e, ⟨false, 0, false⟩)
  else if warp = 0 then .ok (g, e, ⟨true, 0, false⟩)
  else
    let sectors_to_move := pyTrunc (warp * 8)
    let energy_required := sectors_to_move + 10
    if e.energy < energy_required then .ok (g, e, ⟨false, 0, false⟩)
    else
      let e1 := if e.docked then e.undock else e
      match nav_deltas course with
      | .exn => .exn
      | .spin => .spin
      | .ok d =>
        match g.get_quadrant e1.quadrant_row e1.quadrant_col with
        | none => .exn
        | some cq =>
          match cq.remove_enterprise e1.sector_row e1.sector_col with
          | .exn => .exn
          | .spin => .spin
          | .ok cq1 =>
            let g1 := g.setQuadrant e1.quadrant_row e1.quadrant_col cq1
            match navSteps d.1 d.2 sectors_to_move.toNat
                ⟨e1.quadrant_row, e1.quadrant_col,
                  (e1.sector_row : ℝ), (e1.sector_col : ℝ), false⟩ with
            | none =>
              match pySet2 cq1.sector_map e1.sector_row e1.sector_col .enterprise with
              | .ok m' =>
                .ok (g1.setQuadrant e1.quadrant_row e1.quadrant_col
                      { cq1 with sector_map := m' }, e1, ⟨false, 0, false⟩)
              | .exn => .exn
              | .spin => .spin
            | some s1 =>
              let e2 := (e1.use_energy energy_required).2
              let final_row := pyRound s1.sr % 8
              let final_col := pyRound s1.sc % 8
              let placed : Res ((ℤ × ℤ) × Quadrant × ℕ) :=
                if s1.crossed then
                  match g1.get_quadrant s1.qr s1.qc with
                  | none => .exn
                  | some nq =>
                    match init_sector_map nq o 0 with
                    | .ok qi => place_enterprise qi.1 o final_row final_col qi.2
                    | .exn => .exn
                    | .spin => .spin
                else
                  match cq1.get_entity_at final_row final_col with
                  | .exn => .exn
                  | .spin => .spin
                  | .ok ent =>
                    match (if ent ≠ EntityType.empty then
                            find_empty_sector cq1.sector_map o o.fuel 0
                           else .ok ((final_row, final_col), 0)) with
                    | .exn => .exn
                    | .spin => .spin
                    | .ok pc =>
                      match pySet2 cq1.sector_map pc.1.1 pc.1.2 .enterprise with
                      | .ok m2 => .ok (pc.1, { cq1 with sector_map := m2 }, pc.2)
                      | .exn => .exn
                      | .spin => .spin
              match placed with
              | .exn => .exn
              | .spin => .spin
              | .ok pl =>
                let nq2 := pl.2.1
                let g2 := g1.setQuadrant s1.qr s1.qc nq2
                let e3 := e2.set_position s1.qr s1.qc pl.1.1 pl.1.2
                let e4 := if nq2.is_adjacent_to_starbase pl.1.1 pl.1.2 then e3.dock else e3
                let time_used : ℝ := if 0 < warp then 1 / warp else 0
                .ok (g2, e4,
                  ⟨true, time_used, decide (0 < nq2.klingons) && ! e4.docked⟩)

/-- Writing back the element a list already holds changes nothing. -/
theorem list_set_own {α : Type} :
    ∀ (l : List α) (i : ℕ) (a : α), l.get? i = some a → l.set i a = l
  | [], i, a, h => by simp at h
  | x :: l, 0, a, h => by
    simp only [List.get?] at h
    injection h with h
    rw [List.set]
    rw [h]
  | x :: l, i + 1, a, h => by
    simp only [List.get?] at h
    rw [List.set, list_set_own l i a h]

/-- A successful nested write can be written back: setting the cell to a
new value and then to its original value restores the original nested
list. -/
theorem pySet2_roundtrip {α : Type} (m : List (List α)) (r c : ℤ) (v orig : α)
    (hget : pyGet2 m r c = Res.ok orig) :
    ∃ m1, pySet2 m r c v = Res.ok m1 ∧ pySet2 m1 r c orig = Res.ok m := by
  rw [pyGet2] at hget
  cases hj : pyIdx m.length r with
  | none =>
    rw [show pyGet m r = Res.exn by rw [pyGet, hj]] at hget
    exact absurd hget (by simp [Res.bind, Bind.bind])
  | some j =>
    cases hrow : m.get? j with
    | none =>
      have hgr : pyGet m r = Res.exn := by
        rw [pyGet, hj]
        dsimp only
        rw [hrow]
      rw [hgr] at hget
      exact absurd hget (by simp [Res.bind, Bind.bind])
    | some row =>
      have hgr : pyGet m r = Res.ok row := by
        rw [pyGet, hj]
        dsimp only
        rw [hrow]
      rw [show (do
            let row ← pyGet m r
            pyGet row c : Res α) = pyGet row c by rw [hgr]; rfl] at hget
      cases hjc : pyIdx row.length c with
      | none =>
        rw [pyGet, hjc] at hget
        exact absurd hget (by simp)
      | some jc =>
        cases hcell : row.get? jc with
        | none =>
          rw [pyGet, hjc] at hget
          dsimp only at hget
          rw [hcell] at hget
          exact absurd hget (by simp)
        | some cell =>
          rw [pyGet, hjc] at hget
          dsimp only at hget
          rw [hcell] at hget
          dsimp only at hget
          injection hget with hget
          subst hget
          refine ⟨m.set j (row.set jc v), ?_, ?_⟩
          · rw [pySet2, hj]
            dsimp only
            rw [hrow]
            dsimp only
            rw [pySet, hjc]
          · have hlen : (m.set j (row.set jc v)).length = m.length :=
              List.length_set m j _
            have hjlt : j < m.length := by
              by_contra hge
              rw [List.get?_eq_none.mpr (by omega)] at hrow
              exact Option.noConfusion hrow
            have hjclt : jc < row.length := by
              by_contra hge
              rw [List.get?_eq_none.mpr (by omega)] at hcell
              exact Option.noConfusion hcell
            rw [pySet2, hlen, hj]
            dsimp only
            rw [List.get?_set_eq_of_lt _ hjlt]
            dsimp only
            rw [pySet, List.length_set, hjc]
            dsimp only
            have he1 : (row.set jc v).set jc cell = row := by
              rw [List.set_set]
              exact list_set_own row jc cell hcell
            rw [he1, List.set_set, list_set_own m j row hrow]

/-- Overwriting the same quadrant twice keeps only the second write. -/
theorem setQuadrant_setQuadrant (g : Galaxy) (a b : ℤ) (q1 q2 : Quadrant) :
    (g.setQuadrant a b q1).setQuadrant a b q2 = g.setQuadrant a b q2 := by
  unfold Galaxy.setQuadrant
  dsimp only
  congr 1
  funext r c
  by_cases h : r = a ∧ c = b
  · rw [if_pos h, if_pos h]
  · rw [if_neg h, if_neg h, if_neg h]

/-- Writing back the quadrant the grid already holds changes nothing. -/
theorem setQuadrant_restore (g : Galaxy) (a b : ℤ) (q : Quadrant)
    (h : g.grid a b = q) : g.setQuadrant a b q = g := by
  unfold Galaxy.setQuadrant
  have hg : (fun r' c' => if r' = a ∧ c' = b then q else g.grid r' c') = g.grid := by
    funext r c
    by_cases hp : r = a ∧ c = b
    · rw [if_pos hp, ← h, hp.1, hp.2]
    · rw [if_neg hp]
  rw [hg]

/-- A successful bounds-checked lookup exposes the grid value. -/
theorem get_quadrant_some (g : Galaxy) (r c : ℤ) (q : Quadrant)
    (h : g.get_quadrant r c = some q) : g.grid r c = q := by
  rw [Galaxy.get_quadrant] at h
  by_cases hb : 0 ≤ r ∧ r < 8 ∧ 0 ≤ c ∧ c < 8
  · rw [if_pos hb] at h
    exact Option.some.inj h
  · rw [if_neg hb] at h
    exact absurd h (by simp)

/-- C3: whenever the sector-by-sector stepping leaves the galaxy
(quadrant coordinate outside [0,8)), the whole navigation aborts with a
failure result, no energy is deducted, and the ship and galaxy are
exactly as before the command (position fields, energy, and the sector
map's ENTERPRISE cell restored); only the docked flag is cleared, as the
source undocks before moving. -/
theorem execute_nav_barrier_abort
    (g : Galaxy) (e : Enterprise) (course warp : ℝ) (o : NavOracle)
    (cq : Quadrant) (d : ℝ × ℝ)
    (hw : e.can_warp = true)
    (hc : ¬(course < 1 ∨ 9 < course))
    (hwa : ¬(warp < 0 ∨ 8 < warp))
    (hw0 : ¬(warp = 0))
    (hen : ¬(e.energy < pyTrunc (warp * 8) + 10))
    (hq : g.get_quadrant e.quadrant_row e.quadrant_col = some cq)
    (hmap : cq.sector_map ≠ [])
    (hsr : 0 ≤ e.sector_row) (hsr8 : e.sector_row < 8)
    (hsc : 0 ≤ e.sector_col) (hsc8 : e.sector_col < 8)
    (hcell : pyGet2 cq.sector_map e.sector_row e.sector_col =
      Res.ok EntityType.enterprise)
    (hd : nav_deltas course = Res.ok d)
    (hbar : navSteps d.1 d.2 (pyTrunc (warp * 8)).toNat
        ⟨e.quadrant_row, e.quadrant_col,
          (e.sector_row : ℝ), (e.sector_col : ℝ), false⟩ = none) :
    execute_nav g e course warp o =
      Res.ok (g, { e with docked := false }, ⟨false, 0, false⟩) := by
  obtain ⟨m1, hm1, hm1back⟩ := pySet2_roundtrip cq.sector_map e.sector_row
    e.sector_col EntityType.empty EntityType.enterprise hcell
  have he1 : (if e.docked then e.undock else e) = { e with docked := false } := by
    by_cases hdk : e.docked
    · rw [if_pos hdk]
      rfl
    · rw [Bool.not_eq_true] at hdk
      rw [if_neg (by rw [hdk]; exact Bool.false_ne_true), ← hdk]
  have hrem : cq.remove_enterprise e.sector_row e.sector_col =
      Res.ok { cq with sector_map := m1 } := by
    rw [Quadrant.remove_enterprise, if_pos ⟨hmap, hsr, hsr8, hsc, hsc8⟩]
    show Res.bind (pyGet2 cq.sector_map e.sector_row e.sector_col) _ = _
    rw [hcell, Res.bind, if_pos rfl]
    show Res.bind (pySet2 cq.sector_map e.sector_row e.sector_col EntityType.empty)
      _ = _
    rw [hm1]
    rfl
  rw [execute_nav]
  dsimp only
  rw [if_neg (show ¬((!e.can_warp) = true) by rw [hw]; simp), if_neg hc, if_neg hwa,
    if_neg hw0, if_neg hen, he1]
  dsimp only
  rw [hd]
  dsimp only
  rw [hq]
  dsimp only
  rw [hrem]
  dsimp only
  rw [hbar]
  dsimp only
  rw [hm1back]
  dsimp only
  rw [setQuadrant_setQuadrant]
  have hrestore : g.setQuadrant e.quadrant_row e.quadrant_col
      { { cq with sector_map := m1 } with sector_map := cq.sector_map } = g := by
    refine setQuadrant_restore g _ _ _ ?_
    exact get_quadrant_some g _ _ _ hq
  rw [hrestore]

/-- Concrete quadrant for the C3 witness: the ship's cell at (0,0). -/
def navQuadrant : Quadrant :=
  { Quadrant.blank 0 0 with
    stars := 1
    sector_map := emptyMap8.set 0 (emptyRow.set 0 .enterprise) }

/-- Concrete galaxy for the C3 witness. -/
def navGalaxy : Galaxy :=
  { grid := fun r c => if r = 0 ∧ c = 0 then navQuadrant else Quadrant.blank r c,
    total_klingons := 10, total_starbases := 1, initial_klingons := 10,
    stardate := 2000, time_limit := 30 }

/-- Concrete ship for the C3 witness, at sector (0,0) of quadrant (0,0). -/
def navShip : Enterprise := Enterprise.initial

/-- Concrete oracle for the C3 witness (never consulted on the abort
path). -/
def navOracle : NavOracle := ⟨fun _ => (0, 0), fun _ => 0, 1⟩

/-- Course 3.0 (due north) yields the unit step vector (-1, 0). -/
theorem nav_deltas_three : nav_deltas 3 = Res.ok (-1, 0) := by
  rw [nav_deltas]
  have h3 : pyTrunc (3 : ℝ) = 3 := by
    have hcast : ((3 : ℤ) : ℝ) = (3 : ℝ) := by norm_num
    rw [← hcast, pyTrunc_intCast]
  rw [h3]
  norm_num [nav_direction_deltas]
  show Res.bind (Res.ok ((-1 : ℤ), (0 : ℤ))) _ = _
  rw [Res.bind]
  show Res.bind (Res.ok ((-1 : ℤ), (-1 : ℤ))) _ = _
  rw [Res.bind]
  norm_num
  rfl

/-- Warp 1 means 8 sector steps. -/
theorem pyTrunc_warp_one : pyTrunc ((1 : ℝ) * 8) = 8 := by
  have hcast : ((8 : ℤ) : ℝ) = (1 : ℝ) * 8 := by norm_num
  rw [← hcast, pyTrunc_intCast]

/-- Heading due north from sector row 0 of quadrant row 0 crosses the
galactic barrier on the very first step. -/
theorem navSteps_north_abort :
    navSteps (-1) 0 (pyTrunc ((1 : ℝ) * 8)).toNat
      ⟨0, 0, ((0 : ℤ) : ℝ), ((0 : ℤ) : ℝ), false⟩ = none := by
  rw [pyTrunc_warp_one]
  show navSteps (-1) 0 (7 + 1) _ = none
  rw [navSteps]
  have hq : (nav_step (-1) 0 ⟨0, 0, ((0 : ℤ) : ℝ), ((0 : ℤ) : ℝ), false⟩).qr = -1 := by
    rw [nav_step]
    norm_num
  rw [if_pos (Or.inl (by rw [hq]; norm_num))]

/-- C3 witness: navigating due north at warp 1 from sector (0,0) of
quadrant (0,0) hits the barrier immediately; the command fails and the
galaxy and ship (energy, position, map) are unchanged. -/
theorem execute_nav_barrier_abort_witness :
    execute_nav navGalaxy navShip 3 1 navOracle =
      Res.ok (navGalaxy, { navShip with docked := false }, ⟨false, 0, false⟩) := by
  refine execute_nav_barrier_abort navGalaxy navShip 3 1 navOracle navQuadrant
    (-1, 0) (by decide) (by norm_num) (by norm_num) (by norm_num) ?_ rfl
    (by decide) (by decide) (by decide) (by decide) (by decide) (by decide)
    nav_deltas_three navSteps_north_abort
  rw [pyTrunc_warp_one]
  decide
